import Mathlib

/-!
Verification development for the Scribe_checker clinical-transcript pipeline.

The Python sources under `app/` are shallowly embedded below:
* JSON values exchanged between stages (`JValue`) with Python dictionary /
  iteration / truthiness semantics (`pyGetE`, `pyIter`, `pyTruthy`, ...);
* `app/services/cpt_lcd_matcher.py` (`CPTLCDMatcher_match`);
* `app/services/transcript_processor.py` (`TranscriptProcessor_process`);
* the pydantic response models of `app/models/` and the two pipeline
  endpoints `transcribe_audio` (`app/routes/audio.py`) and
  `process_transcript` (`app/main.py`), instrumented with a trace of which
  pipeline stages were invoked.
Exceptions raised by the Python code are modelled with `Except PyErr`.
-/

/-- A JSON value, as produced by `json.loads` and passed between the
pipeline stages.  Objects are ordered association lists (Python dicts from
`json.loads` have unique keys in insertion order). -/
inductive JValue where
  | null
  | b (x : Bool)
  | i (n : Int)
  | s (str : String)
  | arr (xs : List JValue)
  | obj (fields : List (String × JValue))
deriving Repr

/-- Python exceptions that the embedded code can raise. -/
inductive PyErr where
  | typeError
  | attributeError
  | valueError (msg : String)
  | jsonDecodeError
  | httpException (status : Nat)
  | other (msg : String)
deriving Repr, DecidableEq

mutual
/-- Boolean equality on `JValue` (structural). -/
def JValue.beq : JValue → JValue → Bool
  | .null, .null => true
  | .b x, .b y => x == y
  | .i m, .i n => m == n
  | .s t1, .s t2 => t1 == t2
  | .arr xs, .arr ys => JValue.beqList xs ys
  | .obj fs, .obj gs => JValue.beqFields fs gs
  | _, _ => false

def JValue.beqList : List JValue → List JValue → Bool
  | [], [] => true
  | x :: xs, y :: ys => JValue.beq x y && JValue.beqList xs ys
  | _, _ => false

def JValue.beqFields : List (String × JValue) → List (String × JValue) → Bool
  | [], [] => true
  | (k, v) :: fs, (l, w) :: gs => k == l && JValue.beq v w && JValue.beqFields fs gs
  | _, _ => false
end

mutual
theorem JValue.beq_iff : ∀ a b : JValue, JValue.beq a b = true ↔ a = b
  | .null, .null => by simp [JValue.beq]
  | .b x, .b y => by simp [JValue.beq]
  | .i m, .i n => by simp [JValue.beq]
  | .s t1, .s t2 => by simp [JValue.beq]
  | .arr xs, .arr ys => by simp [JValue.beq, JValue.beqList_iff xs ys]
  | .obj fs, .obj gs => by simp [JValue.beq, JValue.beqFields_iff fs gs]
  | .null, .b _ | .null, .i _ | .null, .s _ | .null, .arr _ | .null, .obj _
  | .b _, .null | .b _, .i _ | .b _, .s _ | .b _, .arr _ | .b _, .obj _
  | .i _, .null | .i _, .b _ | .i _, .s _ | .i _, .arr _ | .i _, .obj _
  | .s _, .null | .s _, .b _ | .s _, .i _ | .s _, .arr _ | .s _, .obj _
  | .arr _, .null | .arr _, .b _ | .arr _, .i _ | .arr _, .s _ | .arr _, .obj _
  | .obj _, .null | .obj _, .b _ | .obj _, .i _ | .obj _, .s _ | .obj _, .arr _ => by
    simp [JValue.beq]

theorem JValue.beqList_iff : ∀ xs ys : List JValue, JValue.beqList xs ys = true ↔ xs = ys
  | [], [] => by simp [JValue.beqList]
  | [], _ :: _ => by simp [JValue.beqList]
  | _ :: _, [] => by simp [JValue.beqList]
  | x :: xs, y :: ys => by
    simp [JValue.beqList, JValue.beq_iff x y, JValue.beqList_iff xs ys]

theorem JValue.beqFields_iff :
    ∀ fs gs : List (String × JValue), JValue.beqFields fs gs = true ↔ fs = gs
  | [], [] => by simp [JValue.beqFields]
  | [], _ :: _ => by simp [JValue.beqFields]
  | _ :: _, [] => by simp [JValue.beqFields]
  | (k, v) :: fs, (l, w) :: gs => by
    simp [JValue.beqFields, JValue.beq_iff v w, JValue.beqFields_iff fs gs,
      and_assoc, Prod.ext_iff]
end

instance : DecidableEq JValue := fun a b =>
  decidable_of_iff (JValue.beq a b = true) (JValue.beq_iff a b)

/-- First-match lookup in an object's field list (Python dict access; dicts
from `json.loads` have unique keys, so first match is the dict's entry). -/
def JValue.lookupF : List (String × JValue) → String → Option JValue
  | [], _ => none
  | (k, v) :: fs, key => if k = key then some v else JValue.lookupF fs key

/-- `key in d` for a field list. -/
def JValue.hasKey (fs : List (String × JValue)) (key : String) : Bool :=
  (JValue.lookupF fs key).isSome

/-- Replace every entry with the given key, keeping its position. -/
def JValue.replaceKey : List (String × JValue) → String → JValue → List (String × JValue)
  | [], _, _ => []
  | (k, w) :: fs, key, v =>
    if k = key then (key, v) :: JValue.replaceKey fs key v
    else (k, w) :: JValue.replaceKey fs key v

/-- Python `d[key] = v`: replace the value of an existing key in place, or
append the new key at the end (dict insertion order). -/
def JValue.setKey (fs : List (String × JValue)) (key : String) (v : JValue) :
    List (String × JValue) :=
  if JValue.hasKey fs key then
    JValue.replaceKey fs key v
  else
    fs ++ [(key, v)]

/-- Python truthiness: `None`, `False`, `0`, `""`, `[]`, and the empty dict
are falsy; everything else is truthy. -/
def pyTruthy : JValue → Bool
  | .null => false
  | .b x => x
  | .i n => n != 0
  | .s str => str ≠ ""
  | .arr xs => xs ≠ []
  | .obj fs => fs ≠ []

/-- `d.get(key, default)`.  Raises `AttributeError` when the receiver is not
a dict (lists and other values have no `.get`). -/
def pyGetE (v : JValue) (key : String) (dflt : JValue) : Except PyErr JValue :=
  match v with
  | .obj fs => .ok ((JValue.lookupF fs key).getD dflt)
  | _ => .error .attributeError

/-- `d.get(k, default)` where the key is itself a runtime value (used for
`coding_data.get("lcd_codes", {}).get(code)` in `app/main.py`): a dict is
looked up (non-string keys simply never match the string keys of our JSON
objects), anything else raises `AttributeError`. -/
def pyGetAnyKey (v : JValue) (key : JValue) (dflt : JValue) : Except PyErr JValue :=
  match v with
  | .obj fs =>
    match key with
    | .s k => .ok ((JValue.lookupF fs k).getD dflt)
    | _ => .ok dflt
  | _ => .error .attributeError

/-- Python iteration `for x in v`: lists yield their elements, strings yield
their characters (as one-character strings), dicts yield their keys;
`None`, booleans and numbers are not iterable (`TypeError`). -/
def pyIter : JValue → Except PyErr (List JValue)
  | .arr xs => .ok xs
  | .s str => .ok (str.toList.map (fun c => JValue.s (String.singleton c)))
  | .obj fs => .ok (fs.map (fun p => JValue.s p.1))
  | .null => .error .typeError
  | .b _ => .error .typeError
  | .i _ => .error .typeError

/-- ASCII lower-casing of one character (Python `str.lower` restricted to
the ASCII strings this development handles). -/
def charLower (c : Char) : Char :=
  if 65 ≤ c.toNat ∧ c.toNat ≤ 90 then Char.ofNat (c.toNat + 32) else c

/-- `s.lower()` on a string. -/
def strLower (s : String) : String := ⟨s.data.map charLower⟩

/-- `v.lower()`: only strings have `.lower` (`AttributeError` otherwise). -/
def pyLowerE : JValue → Except PyErr String
  | .s str => .ok (strLower str)
  | _ => .error .attributeError

/-- Python substring containment `needle in hay` on strings. -/
def strContains (hay needle : String) : Bool :=
  hay.toList.tails.any (fun t => needle.toList.isPrefixOf t)

/-- `x in container` (membership test): list membership, dict key test,
substring test for strings; `TypeError` otherwise. -/
def pyIn (x container : JValue) : Except PyErr Bool :=
  match container with
  | .arr xs => .ok (xs.contains x)
  | .obj fs =>
    match x with
    | .s k => .ok (JValue.hasKey fs k)
    | _ => .ok false
  | .s str =>
    match x with
    | .s sub => .ok (strContains str sub)
    | _ => .error .typeError
  | _ => .error .typeError

mutual
/-- Python `repr` of a JSON value (used by `str()` on containers).  String
escaping is not reproduced; the strings in this development contain no
quotes or escapes. -/
def pyRepr : JValue → String
  | .null => "None"
  | .b true => "True"
  | .b false => "False"
  | .i n => toString n
  | .s str => String.singleton (Char.ofNat 39) ++ str ++ String.singleton (Char.ofNat 39)
  | .arr xs => "[" ++ String.intercalate ", " (pyReprList xs) ++ "]"
  | .obj fs => "\x7b" ++ String.intercalate ", " (pyReprFields fs) ++ "\x7d"

def pyReprList : List JValue → List String
  | [] => []
  | x :: xs => pyRepr x :: pyReprList xs

def pyReprFields : List (String × JValue) → List String
  | [] => []
  | (k, v) :: fs =>
    (String.singleton (Char.ofNat 39) ++ k ++ String.singleton (Char.ofNat 39) ++ ": "
      ++ pyRepr v) :: pyReprFields fs
end

/-- Python `str(v)`: identity on strings, `repr`-like rendering otherwise. -/
def pyStr : JValue → String
  | .s str => str
  | v => pyRepr v

/-- `sep.join(iterable)`: every element must be a string (`TypeError`
otherwise); non-iterable receivers raise `TypeError` via `pyIter`. -/
def pyJoin (sep : String) (v : JValue) : Except PyErr String := do
  let elems ← pyIter v
  let strs ← elems.mapM (fun e =>
    match e with
    | JValue.s str => Except.ok str
    | _ => Except.error PyErr.typeError)
  pure (String.intercalate sep strs)

/-- The text returned by a generative backend or agent call: either text
that parses as JSON (to the given value) or text that is not JSON. -/
inductive BackendText where
  | jsonOf (v : JValue)
  | malformed (raw : String)
deriving Repr, DecidableEq

/-- `json.loads` on a backend response: yields the parsed value, or raises
`json.JSONDecodeError` on non-JSON text. -/
def json_loads : BackendText → Except PyErr JValue
  | .jsonOf v => .ok v
  | .malformed _ => .error .jsonDecodeError

/-- `d[key]` subscript access: `KeyError` if the key is missing,
`TypeError` for non-subscriptable receivers. -/
def pySubscript (v : JValue) (key : String) : Except PyErr JValue :=
  match v with
  | .obj fs =>
    match JValue.lookupF fs key with
    | some w => .ok w
    | none => .error (.other "KeyError")
  | _ => .error .typeError

/-- One entry of the CPT/LCD dictionary
(`app/services/cpt_lcd_matcher.py`). -/
structure DictEntry where
  cpt : String
  lcd : String
  required_fields : List String
deriving Repr, DecidableEq

/-- `CPTLCDMatcher._get_default_dictionary`: the built-in three-entry
fallback table. -/
def get_default_dictionary : List (String × DictEntry) :=
  [("lumbar mri",
    ⟨"72148", "L34220",
      ["severity", "duration", "functional_limitations", "neurologic_deficits"]⟩),
   ("facet joint injection",
    ⟨"64493", "L34993",
      ["pain_rating", "prior_treatment", "trigger_point_location"]⟩),
   ("physical therapy",
    ⟨"97110", "L33611",
      ["functional_limitations", "prior_treatment", "assessment"]⟩)]

/-- `s.split(sep)` on a one-character separator (Python `str.split`):
splits into the maximal runs between separator occurrences. -/
def splitCharList (sep : Char) : List Char → List (List Char)
  | [] => [[]]
  | c :: rest =>
    match splitCharList sep rest with
    | [] => [[c]]
    | g :: gs => if c = sep then [] :: g :: gs else (c :: g) :: gs

/-- `s.split(sep)` for strings. -/
def strSplitOn (sep : Char) (s : String) : List String :=
  (splitCharList sep s.data).map (fun l => ⟨l⟩)

/-- `CPTLCDMatcher._check_required_fields`: returns the sublist of
`required_fields` that are missing/falsy in `extracted_data`.  Dotted
fields check `parent not in data or not data[parent].get(child)`;
the listed multi-valued fields and plain fields check
`not data.get(field)`. -/
def check_required_fields (required_fields : List String) (extracted_data : JValue) :
    Except PyErr (List String) :=
  required_fields.foldlM (fun missing field => do
    if strContains field "." then
      match strSplitOn (Char.ofNat 46) field with
      | [parent, child] => do
        let mem ← pyIn (.s parent) extracted_data
        if !mem then
          pure (missing ++ [field])
        else do
          let pv ← pySubscript extracted_data parent
          let cv ← pyGetE pv child .null
          if pyTruthy cv then pure missing else pure (missing ++ [field])
      | _ =>
        -- unpacking `parent, child = field.split(".")` with more than two
        -- parts raises ValueError
        throw (.valueError "too many values to unpack")
    else if field = "prior_treatment" ∨ field = "plan" ∨ field = "procedures_mentioned" then do
      let v ← pyGetE extracted_data field .null
      if pyTruthy v then pure missing else pure (missing ++ [field])
    else do
      let v ← pyGetE extracted_data field .null
      if pyTruthy v then pure missing else pure (missing ++ [field]))
    []

/-- Result dict of `CPTLCDMatcher.match`. -/
structure MatchResult where
  cpt_suggestions : List String
  lcd_codes : List String
  lcd_warnings : List String
deriving Repr, DecidableEq

/-- Insertion into a Python set modelled as a duplicate-free list in
first-insertion order. -/
def setAdd (s : List String) (x : String) : List String :=
  if s.contains x then s else s ++ [x]

/-- Lexicographic comparison of character lists by code point. -/
def charListLe : List Char → List Char → Bool
  | [], _ => true
  | _ :: _, [] => false
  | a :: as, b :: bs =>
    if a.toNat < b.toNat then true
    else if b.toNat < a.toNat then false
    else charListLe as bs

/-- `a <= b` on strings (code-point lexicographic, as Python compares). -/
def strLe (a b : String) : Bool := charListLe a.data b.data

/-- `sorted(list(s))` on a set of strings. -/
def sortStrings (xs : List String) : List String :=
  xs.insertionSort (fun x y => strLe x y = true)

/-- `CPTLCDMatcher.match`: combines `procedures_mentioned` and `plan` into
a case-folded item set, tests substring containment of each dictionary key
in each item, collects CPT/LCD codes and missing-field warnings.  CPython
iterates the intermediate `set` in hash order; it is modelled here in
first-occurrence order — every theorem below uses only order-insensitive
properties of the result (`cpt_suggestions` and `lcd_codes` are sorted by
the source itself). -/
def CPTLCDMatcher_match (cpt_lcd_dict : List (String × DictEntry))
    (extracted_data : JValue) : Except PyErr MatchResult := do
  let procedures ← pyGetE extracted_data "procedures_mentioned" (.arr [])
  let plan_items ← pyGetE extracted_data "plan" (.arr [])
  let procElems ← pyIter procedures
  let procLower ← procElems.mapM pyLowerE
  let planElems ← pyIter plan_items
  let planLower ← planElems.mapM pyLowerE
  let all_items := (procLower ++ planLower).eraseDups
  let result ← all_items.foldlM (fun acc item =>
    cpt_lcd_dict.foldlM (fun acc2 pc => do
      if strContains item pc.1 then
        let cpt_suggestions := setAdd acc2.1 pc.2.cpt
        let lcd_codes := setAdd acc2.2.1 pc.2.lcd
        let missing_fields ← check_required_fields pc.2.required_fields extracted_data
        if missing_fields ≠ [] then
          let warning := "Missing required fields for " ++ pc.1 ++ " (CPT "
            ++ pc.2.cpt ++ ", LCD " ++ pc.2.lcd ++ "): "
            ++ String.intercalate ", " missing_fields
          pure (cpt_suggestions, lcd_codes, acc2.2.2 ++ [warning])
        else
          pure (cpt_suggestions, lcd_codes, acc2.2.2)
      else
        pure acc2) acc)
    (([] : List String), ([] : List String), ([] : List String))
  pure ⟨sortStrings result.1, sortStrings result.2.1, result.2.2⟩

/-- Is the value a JSON object (`isinstance(v, dict)`)? -/
def JValue.isObj : JValue → Bool
  | .obj _ => true
  | _ => false

/-- Is the value a JSON array (`isinstance(v, list)`)? -/
def JValue.isArr : JValue → Bool
  | .arr _ => true
  | _ => false

/-- The required top-level fields checked by
`TranscriptProcessor._validate_extracted_data`. -/
def validate_required_fields : List String :=
  ["patient_info", "chief_complaint", "history_of_present_illness",
   "assessment", "plan", "pain_rating", "recommended_cpt_codes"]

/-- `TranscriptProcessor._validate_extracted_data`: raises `ValueError` on a
missing required top-level field, a non-dict `patient_info`, a truthy
non-dict `pain_rating`, a non-list `recommended_cpt_codes`, or an
ill-shaped CPT entry.  Calling `.keys()` on a non-dict raises
`AttributeError`. -/
def validate_extracted_data (data : JValue) : Except PyErr Unit := do
  let fs ← (match data with
    | JValue.obj fs => Except.ok fs
    | _ => Except.error PyErr.attributeError)
  if validate_required_fields.any (fun f => !(JValue.hasKey fs f)) then
    throw (PyErr.valueError "Missing required fields")
  if !((JValue.lookupF fs "patient_info").getD .null).isObj then
    throw (PyErr.valueError "patient_info must be an object")
  let pain_rating := (JValue.lookupF fs "pain_rating").getD .null
  if pyTruthy pain_rating && !pain_rating.isObj then
    throw (PyErr.valueError "pain_rating must be an object")
  match (JValue.lookupF fs "recommended_cpt_codes").getD (.arr []) with
  | JValue.arr codes =>
    codes.forM (fun code =>
      match code with
      | JValue.obj cfs =>
        if ["code", "description", "requires_lcd"].any (fun f => !(JValue.hasKey cfs f)) then
          throw (PyErr.valueError "CPT code missing required fields")
        else
          pure ()
      | _ => throw (PyErr.valueError "Each CPT code must be an object"))
  | _ => throw (PyErr.valueError "recommended_cpt_codes must be an array")

/-- Default `patient_info` object of `_clean_extracted_data`. -/
def default_patient_info : JValue :=
  .obj [("age", .null), ("sex", .null), ("visit_date", .null), ("visit_location", .null)]

/-- Default `pain_rating` object of `_clean_extracted_data`. -/
def default_pain_rating : JValue :=
  .obj [("level", .null), ("location", .null)]

/-- The `default_values` table of `_clean_extracted_data`, in source
order. -/
def default_values : List (String × JValue) :=
  [("patient_info", default_patient_info),
   ("chief_complaint", .null),
   ("history_of_present_illness", .null),
   ("assessment", .null),
   ("plan", .null),
   ("pain_rating", default_pain_rating),
   ("prior_treatments", .null),
   ("vital_signs", .null),
   ("past_medical_history", .null),
   ("social_history", .null),
   ("family_history", .null),
   ("review_of_systems", .null),
   ("exam_findings", .null),
   ("imaging_summary", .null),
   ("qpp_measures", .arr []),
   ("recommended_cpt_codes", .arr []),
   ("follow_up_instructions", .null),
   ("date", .null)]

/-- The `for field, default_value in default_values.items()` loop: add each
missing field with its default (appended in dict insertion order). -/
def addDefaults (dv : List (String × JValue)) (data : List (String × JValue)) :
    List (String × JValue) :=
  match dv with
  | [] => data
  | (f, d) :: rest => addDefaults rest (if JValue.hasKey data f then data else data ++ [(f, d)])

/-- `for key in [...]: if key not in sub: sub[key] = None` on a nested
object. -/
def ensureKeys (keys : List String) (fs : List (String × JValue)) :
    List (String × JValue) :=
  match keys with
  | [] => fs
  | k :: rest => ensureKeys rest (if JValue.hasKey fs k then fs else fs ++ [(k, .null)])

/-- `code.setdefault(k, v)`. -/
def setdefaultK (fs : List (String × JValue)) (k : String) (v : JValue) :
    List (String × JValue) :=
  if JValue.hasKey fs k then fs else fs ++ [(k, v)]

/-- The `patient_info` cleanup step of `_clean_extracted_data`: a non-dict
value is replaced by the default object; a dict gets its four keys
defaulted to `None`. -/
def clean_patient_info (data : List (String × JValue)) : List (String × JValue) :=
  match (JValue.lookupF data "patient_info").getD .null with
  | .obj pfs =>
    JValue.setKey data "patient_info"
      (.obj (ensureKeys ["age", "sex", "visit_date", "visit_location"] pfs))
  | _ => JValue.setKey data "patient_info" default_patient_info

/-- The `pain_rating` cleanup step: a non-dict value is replaced by the
default object; a dict gets `level`/`location` defaulted to `None`. -/
def clean_pain_rating (data : List (String × JValue)) : List (String × JValue) :=
  match (JValue.lookupF data "pain_rating").getD .null with
  | .obj pfs =>
    JValue.setKey data "pain_rating" (.obj (ensureKeys ["level", "location"] pfs))
  | _ => JValue.setKey data "pain_rating" default_pain_rating

/-- The CPT-codes cleanup step: a non-list value is replaced by `[]`; dict
elements get `requires_lcd`/`lcd_code`/`lcd_requirements`/`lcd_status`
defaulted, non-dict elements are skipped. -/
def clean_cpt_codes (data : List (String × JValue)) : List (String × JValue) :=
  match (JValue.lookupF data "recommended_cpt_codes").getD .null with
  | .arr codes =>
    JValue.setKey data "recommended_cpt_codes"
      (.arr (codes.map (fun code =>
        match code with
        | .obj cfs =>
          .obj (setdefaultK (setdefaultK (setdefaultK (setdefaultK cfs
            "requires_lcd" (.b false)) "lcd_code" .null)
            "lcd_requirements" (.arr [])) "lcd_status" (.s "Not Evaluated"))
        | c => c)))
  | _ => JValue.setKey data "recommended_cpt_codes" (.arr [])

/-- The QPP-measures cleanup step: a non-list value is replaced by `[]`;
dict elements get `status` defaulted, non-dict elements are skipped. -/
def clean_qpp_measures (data : List (String × JValue)) : List (String × JValue) :=
  match (JValue.lookupF data "qpp_measures").getD .null with
  | .arr ms =>
    JValue.setKey data "qpp_measures"
      (.arr (ms.map (fun m =>
        match m with
        | .obj mfs => .obj (setdefaultK mfs "status" (.s "Not Evaluated"))
        | x => x)))
  | _ => JValue.setKey data "qpp_measures" (.arr [])

/-- `TranscriptProcessor._clean_extracted_data` on the field list of the
(validated, hence dict-shaped) extracted data. -/
def clean_extracted_data_fields (data : List (String × JValue)) :
    List (String × JValue) :=
  clean_qpp_measures (clean_cpt_codes (clean_pain_rating (clean_patient_info
    (addDefaults default_values data))))

/-- `TranscriptProcessor._clean_extracted_data`.  It is only ever called
after `_validate_extracted_data`, which guarantees the data is a dict. -/
def clean_extracted_data : JValue → JValue
  | .obj fs => .obj (clean_extracted_data_fields fs)
  | v => v

/-- `TranscriptProcessor.process` applied to the generative backend's
response text: parse as JSON (a `json.JSONDecodeError` is re-raised as
`ValueError`), validate, clean, return. -/
def TranscriptProcessor_process (content : BackendText) : Except PyErr JValue := do
  let extracted_data ← (match json_loads content with
    | .error PyErr.jsonDecodeError =>
      Except.error (PyErr.valueError "Invalid JSON response from GPT")
    | r => r)
  validate_extracted_data extracted_data
  pure (clean_extracted_data extracted_data)

/-- pydantic v1 coercion for an `Optional[str]` field: `None` and strings
pass through, numbers (and `bool`, an `int` subclass) are converted with
`str()`, containers are rejected with a `ValidationError`. -/
def validateOptStr : JValue → Except PyErr JValue
  | .null => .ok .null
  | .s str => .ok (.s str)
  | .i n => .ok (.s (toString n))
  | .b x => .ok (.s (if x then "True" else "False"))
  | .arr _ => .error (.other "ValidationError")
  | .obj _ => .error (.other "ValidationError")

/-- pydantic v1 coercion for an `Optional[bool]` field: `None` and booleans
pass through, `0`/`1` and the usual true/false strings are coerced,
everything else is rejected. -/
def validateOptBool : JValue → Except PyErr JValue
  | .null => .ok .null
  | .b x => .ok (.b x)
  | .i n =>
    if n = 0 then .ok (.b false)
    else if n = 1 then .ok (.b true)
    else .error (.other "ValidationError")
  | .s str =>
    if ["true", "yes", "on", "1"].contains (strLower str) then .ok (.b true)
    else if ["false", "no", "off", "0"].contains (strLower str) then .ok (.b false)
    else .error (.other "ValidationError")
  | _ => .error (.other "ValidationError")

/-- pydantic v1 coercion for a non-optional `str` list element. -/
def validateStrElem : JValue → Except PyErr String
  | .s str => .ok str
  | .i n => .ok (toString n)
  | .b x => .ok (if x then "True" else "False")
  | _ => .error (.other "ValidationError")

/-- pydantic v1 coercion for an `Optional[List[str]]` field. -/
def validateOptListStr : JValue → Except PyErr (Option (List String))
  | .null => .ok none
  | .arr xs => do pure (some (← xs.mapM validateStrElem))
  | _ => .error (.other "ValidationError")

/-- `app/models/transcript_response.py` `PainRating`. -/
structure PainRatingR where
  level : JValue
  location : JValue
deriving Repr, DecidableEq

/-- Validate a value against `Optional[PainRating]`. -/
def PainRating_ofJ : JValue → Except PyErr (Option PainRatingR)
  | .null => .ok none
  | .obj fs => do
    let level ← validateOptStr ((JValue.lookupF fs "level").getD .null)
    let location ← validateOptStr ((JValue.lookupF fs "location").getD .null)
    pure (some ⟨level, location⟩)
  | _ => .error (.other "ValidationError")

/-- `app/models/transcript_response.py` `PatientInfo`. -/
structure PatientInfoR where
  age : JValue
  sex : JValue
  visit_date : JValue
  visit_location : JValue
deriving Repr, DecidableEq

/-- Validate a value against `Optional[PatientInfo]`. -/
def PatientInfo_ofJ : JValue → Except PyErr (Option PatientInfoR)
  | .null => .ok none
  | .obj fs => do
    let age ← validateOptStr ((JValue.lookupF fs "age").getD .null)
    let sex ← validateOptStr ((JValue.lookupF fs "sex").getD .null)
    let visit_date ← validateOptStr ((JValue.lookupF fs "visit_date").getD .null)
    let visit_location ← validateOptStr ((JValue.lookupF fs "visit_location").getD .null)
    pure (some ⟨age, sex, visit_date, visit_location⟩)
  | _ => .error (.other "ValidationError")

/-- `app/models/transcript_response.py` `QPPMeasure`. -/
structure QPPMeasureR where
  measure_id : JValue
  title : JValue
  status : JValue
deriving Repr, DecidableEq

/-- `app/models/transcript_response.py` `CPTCode`. -/
structure CPTCodeR where
  code : JValue
  description : JValue
  requires_lcd : JValue
  lcd_code : JValue
deriving Repr, DecidableEq

/-- Build a `CPTCode` from keyword arguments, applying the pydantic field
validators. -/
def CPTCode_ofFields (code description requires_lcd lcd_code : JValue) :
    Except PyErr CPTCodeR := do
  let c ← validateOptStr code
  let d ← validateOptStr description
  let r ← validateOptBool requires_lcd
  let l ← validateOptStr lcd_code
  pure ⟨c, d, r, l⟩

/-- Validate a list element against `CPTCode` (dict required). -/
def CPTCode_ofJ : JValue → Except PyErr CPTCodeR
  | .obj fs =>
    CPTCode_ofFields
      ((JValue.lookupF fs "code").getD .null)
      ((JValue.lookupF fs "description").getD .null)
      ((JValue.lookupF fs "requires_lcd").getD .null)
      ((JValue.lookupF fs "lcd_code").getD .null)
  | _ => .error (.other "ValidationError")

/-- Validate a value against `Optional[List[CPTCode]]`. -/
def validateOptListCPT : JValue → Except PyErr (Option (List CPTCodeR))
  | .null => .ok none
  | .arr xs => do pure (some (← xs.mapM CPTCode_ofJ))
  | _ => .error (.other "ValidationError")

/-- `app/models/transcript_response.py` `LCDValidationResult`. -/
structure LCDValidationResultR where
  cpt_code : JValue
  lcd_code : JValue
  requirements : Option (List String)
  status : JValue
deriving Repr, DecidableEq

/-- Validate a list element against `LCDValidationResult` (dict required). -/
def LCDValidationResult_ofJ : JValue → Except PyErr LCDValidationResultR
  | .obj fs => do
    let cpt_code ← validateOptStr ((JValue.lookupF fs "cpt_code").getD .null)
    let lcd_code ← validateOptStr ((JValue.lookupF fs "lcd_code").getD .null)
    let requirements ← validateOptListStr ((JValue.lookupF fs "requirements").getD .null)
    let status ← validateOptStr ((JValue.lookupF fs "status").getD .null)
    pure ⟨cpt_code, lcd_code, requirements, status⟩
  | _ => .error (.other "ValidationError")

/-- Validate a value against `Optional[List[LCDValidationResult]]`. -/
def validateOptListLCD : JValue → Except PyErr (Option (List LCDValidationResultR))
  | .null => .ok none
  | .arr xs => do pure (some (← xs.mapM LCDValidationResult_ofJ))
  | _ => .error (.other "ValidationError")

/-- `app/models/transcript_processor_response.py`
`TranscriptProcessorResponse`.  `patient_info` is annotated
`Optional[Any]` by the (second, overriding) annotation in the source, so
its value is stored unvalidated; every other field is `Optional[str]`
except `pain_rating : Optional[PainRating]`.  There is no
`recommended_cpt_codes` field: pydantic's default `Extra.ignore` silently
drops that key (and any other extra key) of the extraction output. -/
structure TPRRecord where
  patient_info : JValue
  chief_complaint : JValue
  history_of_present_illness : JValue
  assessment : JValue
  plan : JValue
  pain_rating : Option PainRatingR
  prior_treatments : JValue
  vital_signs : JValue
  past_medical_history : JValue
  social_history : JValue
  family_history : JValue
  review_of_systems : JValue
  exam_findings : JValue
  imaging_summary : JValue
  follow_up_instructions : JValue
  date : JValue
  prompt : JValue
deriving Repr, DecidableEq

/-- `TranscriptProcessorResponse(**extracted_data_raw)`: ignore extra keys,
default missing ones to `None`, validate each declared field. -/
def TranscriptProcessorResponse_ofJ : JValue → Except PyErr TPRRecord
  | .obj fs => do
    let g := fun k => (JValue.lookupF fs k).getD .null
    let chief_complaint ← validateOptStr (g "chief_complaint")
    let history_of_present_illness ← validateOptStr (g "history_of_present_illness")
    let assessment ← validateOptStr (g "assessment")
    let plan ← validateOptStr (g "plan")
    let pain_rating ← PainRating_ofJ (g "pain_rating")
    let prior_treatments ← validateOptStr (g "prior_treatments")
    let vital_signs ← validateOptStr (g "vital_signs")
    let past_medical_history ← validateOptStr (g "past_medical_history")
    let social_history ← validateOptStr (g "social_history")
    let family_history ← validateOptStr (g "family_history")
    let review_of_systems ← validateOptStr (g "review_of_systems")
    let exam_findings ← validateOptStr (g "exam_findings")
    let imaging_summary ← validateOptStr (g "imaging_summary")
    let follow_up_instructions ← validateOptStr (g "follow_up_instructions")
    let date ← validateOptStr (g "date")
    let prompt ← validateOptStr (g "prompt")
    pure ⟨g "patient_info", chief_complaint, history_of_present_illness, assessment,
      plan, pain_rating, prior_treatments, vital_signs, past_medical_history,
      social_history, family_history, review_of_systems, exam_findings,
      imaging_summary, follow_up_instructions, date, prompt⟩
  | _ => .error (.other "ValidationError")

/-- `app/models/transcript_response.py` `TranscriptResponse`. -/
structure TranscriptResponseR where
  patient_info : Option PatientInfoR
  chief_complaint : JValue
  history_of_present_illness : JValue
  assessment : JValue
  plan : JValue
  pain_rating : Option PainRatingR
  prior_treatments : JValue
  vital_signs : JValue
  past_medical_history : JValue
  social_history : JValue
  family_history : JValue
  review_of_systems : JValue
  exam_findings : JValue
  imaging_summary : JValue
  qpp_measures : Option (List QPPMeasureR)
  recommended_cpt_codes : Option (List CPTCodeR)
  follow_up_instructions : JValue
  date : JValue
  prompt : JValue
  icd_codes : Option (List String)
  lcd_validation : Option (List LCDValidationResultR)
deriving Repr, DecidableEq

/-- The merge step of `transcribe_audio` (`app/routes/audio.py` lines
204-210): `TranscriptResponse(**extracted_data.dict(), icd_codes=...,
recommended_cpt_codes=..., lcd_validation=...)`.  The
`TranscriptProcessorResponse` fields are already validated, so they pass
through; the three agent-derived values are validated against their list
types; `qpp_measures` is not passed and defaults to `None`. -/
def TranscriptResponse_merge (e : TPRRecord) (icd_v cpt_v lcd_v : JValue) :
    Except PyErr TranscriptResponseR := do
  let patient_info ← PatientInfo_ofJ e.patient_info
  let icd_codes ← validateOptListStr icd_v
  let recommended_cpt_codes ← validateOptListCPT cpt_v
  let lcd_validation ← validateOptListLCD lcd_v
  pure ⟨patient_info, e.chief_complaint, e.history_of_present_illness, e.assessment,
    e.plan, e.pain_rating, e.prior_treatments, e.vital_signs,
    e.past_medical_history, e.social_history, e.family_history,
    e.review_of_systems, e.exam_findings, e.imaging_summary, none,
    recommended_cpt_codes, e.follow_up_instructions, e.date, e.prompt,
    icd_codes, lcd_validation⟩

/-- The per-request inputs of `transcribe_audio` (`app/routes/audio.py`):
the transcript produced by the speech-to-text collaborator and the
response of each external generative call.  Each agent call either returns
its response text or raises. -/
structure AudioInputs where
  transcript : String
  extraction : BackendText
  icd_call : Except PyErr BackendText
  cpt_call : Except PyErr BackendText
  lcd_call : Except PyErr BackendText

/-- `transcribe_audio` (`app/routes/audio.py` lines 110-222), paired with
the ordered list of pipeline stages actually invoked.  Any exception
(re-raised agent failures as well as `AttributeError` from `.get` on
non-dict parsed JSON) surfaces as an HTTP 500.  `call_assistant_agent`
raises on empty response text, so the `if response else {}` guard before
each `json.loads` never takes its else-branch and is not modelled. -/
def transcribe_audio (inp : AudioInputs) :
    Except PyErr TranscriptResponseR × List String :=
  match TranscriptProcessor_process inp.extraction with
  | .error _ => (.error (.httpException 500), ["extraction"])
  | .ok extracted_data_raw =>
  match TranscriptProcessorResponse_ofJ extracted_data_raw with
  | .error _ => (.error (.httpException 500), ["extraction"])
  | .ok extracted_data =>
  -- Agent 2: Json_to_icd
  match inp.icd_call with
  | .error _ => (.error (.httpException 500), ["extraction", "icd_agent"])
  | .ok icd_text =>
  match json_loads icd_text with
  | .error _ => (.error (.httpException 500), ["extraction", "icd_agent"])
  | .ok icd_parsed_data =>
  -- building cpt_agent_input reads icd_parsed_data.get("icd_codes", [])
  -- outside any inner try: AttributeError on non-dict JSON aborts here
  match pyGetE icd_parsed_data "icd_codes" (.arr []) with
  | .error _ => (.error (.httpException 500), ["extraction", "icd_agent"])
  | .ok _icd_codes_for_input =>
  -- Agent 6: CPTcodes
  match inp.cpt_call with
  | .error _ => (.error (.httpException 500), ["extraction", "icd_agent", "cpt_agent"])
  | .ok cpt_text =>
  match json_loads cpt_text with
  | .error _ => (.error (.httpException 500), ["extraction", "icd_agent", "cpt_agent"])
  | .ok cpt_parsed_data =>
  -- building lcd_agent_input reads cpt_parsed_data.get("recommended_cpt_codes", [])
  -- outside any inner try
  match pyGetE cpt_parsed_data "recommended_cpt_codes" (.arr []) with
  | .error _ => (.error (.httpException 500), ["extraction", "icd_agent", "cpt_agent"])
  | .ok _cpt_codes_for_input =>
  -- Agent 5: LCD_Validator_Agentv1
  match inp.lcd_call with
  | .error _ =>
    (.error (.httpException 500), ["extraction", "icd_agent", "cpt_agent", "lcd_validator"])
  | .ok lcd_text =>
  match json_loads lcd_text with
  | .error _ =>
    (.error (.httpException 500), ["extraction", "icd_agent", "cpt_agent", "lcd_validator"])
  | .ok lcd_parsed_data =>
  -- merge
  match (do
    let icd_v ← pyGetE icd_parsed_data "icd_codes" (.arr [])
    let cpt_v ← pyGetE cpt_parsed_data "recommended_cpt_codes" (.arr [])
    let lcd_v ← pyGetE lcd_parsed_data "lcd_validation" (.arr [])
    TranscriptResponse_merge extracted_data icd_v cpt_v lcd_v) with
  | .error _ =>
    (.error (.httpException 500), ["extraction", "icd_agent", "cpt_agent", "lcd_validator"])
  | .ok final_response =>
    (.ok final_response, ["extraction", "icd_agent", "cpt_agent", "lcd_validator"])

/-- `MatchResult` as the Python dict returned by `CPTLCDMatcher.match`. -/
def MatchResult.toJ (r : MatchResult) : JValue :=
  .obj [("cpt_suggestions", .arr (r.cpt_suggestions.map JValue.s)),
        ("lcd_codes", .arr (r.lcd_codes.map JValue.s)),
        ("lcd_warnings", .arr (r.lcd_warnings.map JValue.s))]

/-- The CPT-code list comprehension of `process_transcript`
(`app/main.py` lines 186-194).  For each suggested code it evaluates
`coding_data.get("descriptions", {}).get(code, "")`,
`code in coding_data.get("lcd_codes", [])`, and
`coding_data.get("lcd_codes", {}).get(code)` — the last expression calls
`.get` on the `lcd_codes` *list*, raising `AttributeError`. -/
def buildCptCodes (coding_data : JValue) : Except PyErr (List CPTCodeR) := do
  let suggestions ← pyGetE coding_data "cpt_suggestions" (.arr [])
  let codes ← pyIter suggestions
  codes.mapM (fun code => do
    let descs ← pyGetE coding_data "descriptions" (.obj [])
    let description ← pyGetAnyKey descs code (.s "")
    let lcd_list ← pyGetE coding_data "lcd_codes" (.arr [])
    let requires_lcd ← pyIn code lcd_list
    let lcd_map ← pyGetE coding_data "lcd_codes" (.obj [])
    let lcd_code ← pyGetAnyKey lcd_map code .null
    CPTCode_ofFields code description (.b requires_lcd) lcd_code)

/-- The response assembly of `process_transcript` (`app/main.py` lines
196-220): request-derived `patient_info`, fields read from the cleaned
extraction dict, the `str()`-rendered pain level, the joined
`prior_treatment` list (a key the cleaned record never contains —
`prior_treatments` is the cleaned spelling), and the CPT codes built
above; the resulting dict is validated by `TranscriptResponse`. -/
def assemble_response (visit_date : Option String) (extracted_data : JValue)
    (cpt_codes : List CPTCodeR) : Except PyErr TranscriptResponseR := do
  let visit_date_j := match visit_date with
    | some d => JValue.s d
    | none => JValue.null
  let chief_complaint_raw ← pyGetE extracted_data "chief_complaint" .null
  let history_raw ← pyGetE extracted_data "history_of_present_illness" .null
  let assessment_raw ← pyGetE extracted_data "assessment" .null
  let plan_raw ← pyGetE extracted_data "plan" .null
  let pr ← pyGetE extracted_data "pain_rating" .null
  let pain_rating ← (if pyTruthy pr then do
      let prd ← pyGetE extracted_data "pain_rating" (.obj [])
      let level ← pyGetE prd "level" .null
      let location_raw ← pyGetE prd "location" .null
      let lv ← validateOptStr (.s (pyStr level))
      let lo ← validateOptStr location_raw
      pure (some (⟨lv, lo⟩ : PainRatingR))
    else
      pure none)
  let pt ← pyGetE extracted_data "prior_treatment" (.arr [])
  let prior_treatments_s ← pyJoin ", " pt
  let objf ← pyGetE extracted_data "objective_findings" (.obj [])
  let exam_findings_raw ← pyGetE objf "range_of_motion" .null
  let date_raw ← pyGetE extracted_data "date" .null
  let chief_complaint ← validateOptStr chief_complaint_raw
  let history_of_present_illness ← validateOptStr history_raw
  let assessment ← validateOptStr assessment_raw
  let plan ← validateOptStr plan_raw
  let exam_findings ← validateOptStr exam_findings_raw
  let date ← validateOptStr date_raw
  pure ⟨some ⟨.null, .null, visit_date_j, .null⟩, chief_complaint,
    history_of_present_illness, assessment, plan, pain_rating,
    .s prior_treatments_s, .null, .null, .null, .null, .null, exam_findings,
    .null, some [], some cpt_codes, .null, date, .null, some [], some []⟩

/-- `process_transcript` (`app/main.py` lines 151-224), paired with the
ordered list of pipeline stages actually invoked.  Every exception is
mapped to an HTTP 500. -/
def process_transcript (visit_date : Option String) (extraction : BackendText)
    (cpt_lcd_dict : List (String × DictEntry)) :
    Except PyErr TranscriptResponseR × List String :=
  match TranscriptProcessor_process extraction with
  | .error _ => (.error (.httpException 500), ["extraction"])
  | .ok extracted_data =>
  match CPTLCDMatcher_match cpt_lcd_dict extracted_data with
  | .error _ => (.error (.httpException 500), ["extraction", "matcher"])
  | .ok coding_data =>
  match (do
    let cpt_codes ← buildCptCodes coding_data.toJ
    assemble_response visit_date extracted_data cpt_codes) with
  | .error _ => (.error (.httpException 500), ["extraction", "matcher"])
  | .ok resp => (.ok resp, ["extraction", "matcher"])

/-- A Python dict read on the pipeline's JSON values. -/
def JValue.lookup : JValue → String → Option JValue
  | .obj fs, k => JValue.lookupF fs k
  | _, _ => none

/-- The sixteen fixed top-level fields of the Structured Clinical Record
with their documented defaults (spec section 3): the `default_values` table
without the `qpp_measures` / `recommended_cpt_codes` entries, which the
spec lists separately. -/
def spec_top_level_defaults : List (String × JValue) :=
  [("patient_info", default_patient_info),
   ("chief_complaint", .null), ("history_of_present_illness", .null),
   ("assessment", .null), ("plan", .null),
   ("pain_rating", default_pain_rating),
   ("prior_treatments", .null), ("vital_signs", .null),
   ("past_medical_history", .null), ("social_history", .null),
   ("family_history", .null), ("review_of_systems", .null),
   ("exam_findings", .null), ("imaging_summary", .null),
   ("follow_up_instructions", .null), ("date", .null)]

/-- Placeholder record used as the unreachable fallback of concrete-run
definitions below. -/
def dummyResponse : TranscriptResponseR :=
  ⟨none, .null, .null, .null, .null, none, .null, .null, .null, .null, .null,
   .null, .null, .null, none, none, .null, .null, .null, none, none⟩

/-- Placeholder `TranscriptProcessorResponse` record (unreachable
fallback). -/
def dummyTPR : TPRRecord :=
  ⟨.null, .null, .null, .null, .null, none, .null, .null, .null, .null, .null,
   .null, .null, .null, .null, .null, .null⟩

/-- A minimal extraction-backend response accepted by
`_validate_extracted_data`, with an extraction-produced
`recommended_cpt_codes` list. -/
def c1ext_fields : List (String × JValue) :=
  [("patient_info", .obj []), ("chief_complaint", .null),
   ("history_of_present_illness", .null), ("assessment", .null),
   ("plan", .null), ("pain_rating", .null),
   ("recommended_cpt_codes",
    .arr [.obj [("code", .s "11111"), ("description", .s "extraction suggestion"),
      ("requires_lcd", .b false)]])]

/-- A CPT-agent response object with a different list. -/
def c1cpt_fields : List (String × JValue) :=
  [("recommended_cpt_codes",
    .arr [.obj [("code", .s "97110"), ("description", .s "therapeutic exercise"),
      ("requires_lcd", .b true), ("lcd_code", .s "L33611")]])]

/-- Concrete pipeline run for the merge-precedence witness. -/
def c1inp : AudioInputs :=
  ⟨"the real transcript", .jsonOf (.obj c1ext_fields),
   .ok (.jsonOf (.obj [("icd_codes", .arr [.s "M54.5"])])),
   .ok (.jsonOf (.obj c1cpt_fields)),
   .ok (.jsonOf (.obj []))⟩

/-- The response produced by the run above. -/
def c1resp : TranscriptResponseR :=
  match (transcribe_audio c1inp).1 with
  | .ok r => r
  | .error _ => dummyResponse

/-- An accepted extraction response that omits the optional top-level
fields (`vital_signs`, `prior_treatments`, `date`, ...). -/
def c2ext_fields : List (String × JValue) :=
  [("patient_info", .obj []), ("chief_complaint", .s "back pain"),
   ("history_of_present_illness", .null), ("assessment", .null),
   ("plan", .null), ("pain_rating", .null), ("recommended_cpt_codes", .arr [])]

/-- The single-entry Code Dictionary of the round-trip claim. -/
def c3dict : List (String × DictEntry) :=
  [("physical therapy", ⟨"97110", "L33611", ["functional_limitations"]⟩)]

/-- The claim's plan sentence. -/
def c3planText : String := "Plan: start physical therapy 2x/week"

/-- A structured record whose `plan` is (as the spec's record shape in
section 3 prescribes) a *string* containing the claim's sentence, with
`functional_limitations` absent. -/
def c3record : JValue := .obj [("plan", .s c3planText)]

/-- Minimal accepted extraction response (all required fields, nothing
else). -/
def c6ext_fields : List (String × JValue) :=
  [("patient_info", .obj []), ("chief_complaint", .null),
   ("history_of_present_illness", .null), ("assessment", .null),
   ("plan", .null), ("pain_rating", .null), ("recommended_cpt_codes", .arr [])]

/-- A run in which the ICD agent returns valid JSON that is an *array*,
not an object. -/
def c6bad_inp : AudioInputs :=
  ⟨"t", .jsonOf (.obj c6ext_fields), .ok (.jsonOf (.arr [])),
   .ok (.jsonOf (.obj [])), .ok (.jsonOf (.obj []))⟩

/-- A run in which every agent returns a JSON *object* lacking its array
field. -/
def c6ok_inp : AudioInputs :=
  ⟨"t", .jsonOf (.obj c6ext_fields), .ok (.jsonOf (.obj [])),
   .ok (.jsonOf (.obj [])), .ok (.jsonOf (.obj []))⟩

/-- The validated first-stage record of the run above. -/
def c6e : TPRRecord :=
  match TranscriptProcessorResponse_ofJ (.obj (clean_extracted_data_fields c6ext_fields)) with
  | .ok e => e
  | .error _ => dummyTPR

/-- An extraction response whose `pain_rating` arrives as the loose string
of the claim, all required fields present. -/
def c7data_fields : List (String × JValue) :=
  [("patient_info", .obj []), ("chief_complaint", .null),
   ("history_of_present_illness", .null), ("assessment", .null),
   ("plan", .null), ("pain_rating", .s "7/10 in lower back"),
   ("recommended_cpt_codes", .arr [])]

/-- An accepted extraction response that echoes a `prompt` field. -/
def c8ext_fields : List (String × JValue) :=
  [("patient_info", .obj []), ("chief_complaint", .null),
   ("history_of_present_illness", .null), ("assessment", .null),
   ("plan", .null), ("pain_rating", .null), ("recommended_cpt_codes", .arr []),
   ("prompt", .s "echoed by backend")]

/-- A run whose transcript differs from the echoed prompt. -/
def c8inp : AudioInputs :=
  ⟨"the real transcript", .jsonOf (.obj c8ext_fields),
   .ok (.jsonOf (.obj [])), .ok (.jsonOf (.obj [])), .ok (.jsonOf (.obj []))⟩

/-- The response produced by the run above. -/
def c8resp : TranscriptResponseR :=
  match (transcribe_audio c8inp).1 with
  | .ok r => r
  | .error _ => dummyResponse

/-- An accepted extraction response whose `plan` list mentions physical
therapy, so the matcher produces a CPT suggestion. -/
def c9ext_fields : List (String × JValue) :=
  [("patient_info", .obj []), ("chief_complaint", .null),
   ("history_of_present_illness", .null), ("assessment", .null),
   ("plan", .arr [.s "physical therapy"]), ("pain_rating", .null),
   ("recommended_cpt_codes", .arr [])]

/-- The matcher result for the record above (under the default
dictionary). -/
def c9match : MatchResult :=
  match CPTLCDMatcher_match get_default_dictionary
      (.obj (clean_extracted_data_fields c9ext_fields)) with
  | .ok r => r
  | .error _ => ⟨[], [], []⟩

/-- An accepted extraction response with `plan` null (the default the
cleaning step would also produce were `plan` omitted). -/
def c10ext_fields : List (String × JValue) :=
  [("patient_info", .obj []), ("chief_complaint", .null),
   ("history_of_present_illness", .null), ("assessment", .null),
   ("plan", .null), ("pain_rating", .null), ("recommended_cpt_codes", .arr [])]

theorem exceptBind_ok {α β : Type} {x : Except PyErr α} {f : α → Except PyErr β}
    {y : β} (h : x >>= f = .ok y) : ∃ a, x = .ok a ∧ f a = .ok y := by
  cases x with
  | error e => simp [Bind.bind, Except.bind] at h
  | ok a => exact ⟨a, rfl, by simpa [Bind.bind, Except.bind] using h⟩

theorem lookupF_append_of_none {d1 : List (String × JValue)} {f : String}
    (d2 : List (String × JValue)) (h : JValue.lookupF d1 f = none) :
    JValue.lookupF (d1 ++ d2) f = JValue.lookupF d2 f := by
  induction d1 with
  | nil => rfl
  | cons p rest ih =>
    obtain ⟨k, v⟩ := p
    by_cases hk : k = f
    · simp [JValue.lookupF, hk] at h
    · simp only [JValue.lookupF, hk, if_false, List.cons_append] at h ⊢
      exact ih h

theorem lookupF_append_of_isSome {d1 : List (String × JValue)} {f : String}
    (d2 : List (String × JValue)) (h : (JValue.lookupF d1 f).isSome) :
    JValue.lookupF (d1 ++ d2) f = JValue.lookupF d1 f := by
  induction d1 with
  | nil => simp [JValue.lookupF] at h
  | cons p rest ih =>
    obtain ⟨k, v⟩ := p
    by_cases hk : k = f
    · simp [JValue.lookupF, hk]
    · simp only [JValue.lookupF, hk, if_false, List.cons_append] at h ⊢
      exact ih h

theorem lookupF_replaceKey_self (k : String) (v : JValue) :
    ∀ d : List (String × JValue), (JValue.lookupF d k).isSome →
      JValue.lookupF (JValue.replaceKey d k v) k = some v := by
  intro d
  induction d with
  | nil => simp [JValue.lookupF]
  | cons p rest ih =>
    obtain ⟨a, b⟩ := p
    intro h
    by_cases ha : a = k
    · simp [JValue.replaceKey, ha, JValue.lookupF]
    · simp only [JValue.lookupF, ha, if_false] at h
      simp only [JValue.replaceKey, ha, if_false, JValue.lookupF]
      exact ih h

theorem lookupF_replaceKey_ne (k : String) (v : JValue) (f : String) (hf : f ≠ k) :
    ∀ d : List (String × JValue),
      JValue.lookupF (JValue.replaceKey d k v) f = JValue.lookupF d f := by
  intro d
  induction d with
  | nil => rfl
  | cons p rest ih =>
    obtain ⟨a, b⟩ := p
    by_cases ha : a = k
    · subst ha
      simp only [JValue.replaceKey, if_pos rfl, JValue.lookupF, if_neg (Ne.symm hf),
        if_neg (fun hh : a = f => hf (hh ▸ rfl))]
      exact ih
    · simp only [JValue.replaceKey, ha, if_false, JValue.lookupF]
      by_cases haf : a = f
      · simp [haf]
      · simp only [haf, if_false]
        exact ih

theorem lookupF_setKey_self (d : List (String × JValue)) (k : String) (v : JValue) :
    JValue.lookupF (JValue.setKey d k v) k = some v := by
  cases hk : JValue.hasKey d k with
  | true =>
    simp only [JValue.setKey, hk, if_pos rfl]
    exact lookupF_replaceKey_self k v d hk
  | false =>
    have hn : JValue.lookupF d k = none := by
      unfold JValue.hasKey at hk
      cases hl : JValue.lookupF d k with
      | none => rfl
      | some w => simp [hl] at hk
    simp only [JValue.setKey, hk, Bool.false_eq_true, if_false]
    rw [lookupF_append_of_none _ hn]
    simp [JValue.lookupF]

theorem lookupF_setKey_ne (d : List (String × JValue)) (k : String) (v : JValue)
    (f : String) (h : f ≠ k) :
    JValue.lookupF (JValue.setKey d k v) f = JValue.lookupF d f := by
  cases hk : JValue.hasKey d k with
  | true =>
    simp only [JValue.setKey, hk, if_pos rfl]
    exact lookupF_replaceKey_ne k v f h d
  | false =>
    simp only [JValue.setKey, hk, Bool.false_eq_true, if_false]
    cases hl : JValue.lookupF d f with
    | some w => rw [lookupF_append_of_isSome _ (by simp [hl]), hl]
    | none =>
      rw [lookupF_append_of_none _ hl]
      simp [JValue.lookupF, Ne.symm h, hl]

theorem hasKey_setKey_self (d : List (String × JValue)) (k : String) (v : JValue) :
    JValue.hasKey (JValue.setKey d k v) k = true := by
  unfold JValue.hasKey
  simp [lookupF_setKey_self]

theorem hasKey_setKey_of_hasKey {d : List (String × JValue)} {f : String}
    (k : String) (v : JValue) (h : JValue.hasKey d f = true) :
    JValue.hasKey (JValue.setKey d k v) f = true := by
  by_cases hk : f = k
  · subst hk; exact hasKey_setKey_self d f v
  · unfold JValue.hasKey at h ⊢
    rw [lookupF_setKey_ne d k v f hk]
    exact h

theorem addDefaults_lookupF_of_hasKey :
    ∀ (dv : List (String × JValue)) (data : List (String × JValue)) (f : String),
      JValue.hasKey data f = true →
      JValue.lookupF (addDefaults dv data) f = JValue.lookupF data f := by
  intro dv
  induction dv with
  | nil => intro data f _; rfl
  | cons p rest ih =>
    obtain ⟨g, w⟩ := p
    intro data f h
    simp only [addDefaults]
    by_cases hg : JValue.hasKey data g = true
    · simp only [hg, if_pos rfl]
      exact ih data f h
    · have hg' : JValue.hasKey data g = false := by
        cases hgg : JValue.hasKey data g
        · rfl
        · exact absurd hgg hg
      simp only [hg', Bool.false_eq_true, if_false]
      have hsome : (JValue.lookupF data f).isSome := h
      rw [ih (data ++ [(g, w)]) f
        (by unfold JValue.hasKey; rw [lookupF_append_of_isSome _ hsome]; exact h)]
      rw [lookupF_append_of_isSome _ hsome]

theorem addDefaults_lookupF_of_none :
    ∀ (dv : List (String × JValue)) (data : List (String × JValue)) (f : String)
      (d : JValue), JValue.lookupF data f = none → (f, d) ∈ dv →
      (dv.map Prod.fst).Nodup →
      JValue.lookupF (addDefaults dv data) f = some d := by
  intro dv
  induction dv with
  | nil => intro data f d _ hmem _; simp at hmem
  | cons p rest ih =>
    obtain ⟨g, w⟩ := p
    intro data f d habs hmem hnd
    simp only [List.map_cons, List.nodup_cons] at hnd
    simp only [addDefaults]
    by_cases hgf : g = f
    · subst hgf
      have hdw : d = w := by
        rcases List.mem_cons.mp hmem with heq | hrest
        · exact congrArg Prod.snd heq
        · exact absurd (List.mem_map.mpr ⟨(g, d), hrest, rfl⟩) hnd.1
      subst hdw
      have hgk : JValue.hasKey data g = false := by
        unfold JValue.hasKey; rw [habs]; rfl
      simp only [hgk, Bool.false_eq_true, if_false]
      have hkey : JValue.hasKey (data ++ [(g, d)]) g = true := by
        unfold JValue.hasKey
        rw [lookupF_append_of_none _ habs]
        simp [JValue.lookupF]
      rw [addDefaults_lookupF_of_hasKey rest _ g hkey]
      rw [lookupF_append_of_none _ habs]
      simp [JValue.lookupF]
    · have hmem' : (f, d) ∈ rest := by
        rcases List.mem_cons.mp hmem with heq | hrest
        · exact absurd (congrArg Prod.fst heq).symm hgf
        · exact hrest
      by_cases hg : JValue.hasKey data g = true
      · simp only [hg, if_pos rfl]
        exact ih data f d habs hmem' hnd.2
      · have hg' : JValue.hasKey data g = false := by
          cases hgg : JValue.hasKey data g
          · rfl
          · exact absurd hgg hg
        simp only [hg', Bool.false_eq_true, if_false]
        refine ih (data ++ [(g, w)]) f d ?_ hmem' hnd.2
        rw [lookupF_append_of_none _ habs]
        simp [JValue.lookupF, hgf]

theorem addDefaults_hasKey_of_hasKey :
    ∀ (dv : List (String × JValue)) (data : List (String × JValue)) (f : String),
      JValue.hasKey data f = true → JValue.hasKey (addDefaults dv data) f = true := by
  intro dv
  induction dv with
  | nil => intro data f h; exact h
  | cons p rest ih =>
    obtain ⟨g, w⟩ := p
    intro data f h
    simp only [addDefaults]
    by_cases hg : JValue.hasKey data g = true
    · simp only [hg, if_pos rfl]; exact ih data f h
    · have hg' : JValue.hasKey data g = false := by
        cases hgg : JValue.hasKey data g
        · rfl
        · exact absurd hgg hg
      simp only [hg', Bool.false_eq_true, if_false]
      refine ih _ f ?_
      unfold JValue.hasKey at h ⊢
      rw [lookupF_append_of_isSome _ h]
      exact h

theorem addDefaults_hasKey_of_mem :
    ∀ (dv : List (String × JValue)) (data : List (String × JValue)) (f : String),
      f ∈ dv.map Prod.fst → JValue.hasKey (addDefaults dv data) f = true := by
  intro dv
  induction dv with
  | nil => intro data f h; simp at h
  | cons p rest ih =>
    obtain ⟨g, w⟩ := p
    intro data f h
    simp only [List.map_cons, List.mem_cons] at h
    simp only [addDefaults]
    by_cases hg : JValue.hasKey data g = true
    · simp only [hg, if_pos rfl]
      rcases h with heq | hrest
      · subst heq; exact addDefaults_hasKey_of_hasKey rest data f hg
      · exact ih data f hrest
    · have hg' : JValue.hasKey data g = false := by
        cases hgg : JValue.hasKey data g
        · rfl
        · exact absurd hgg hg
      simp only [hg', Bool.false_eq_true, if_false]
      rcases h with heq | hrest
      · subst heq
        refine addDefaults_hasKey_of_hasKey rest _ f ?_
        have hn : JValue.lookupF data f = none := by
          unfold JValue.hasKey at hg'
          cases hl : JValue.lookupF data f with
          | none => rfl
          | some u => rw [hl] at hg'; simp at hg'
        unfold JValue.hasKey
        rw [lookupF_append_of_none _ hn]
        simp [JValue.lookupF]
      · exact ih _ f hrest

theorem addDefaults_lookupF_of_not_mem :
    ∀ (dv : List (String × JValue)) (data : List (String × JValue)) (f : String),
      f ∉ dv.map Prod.fst →
      JValue.lookupF (addDefaults dv data) f = JValue.lookupF data f := by
  intro dv
  induction dv with
  | nil => intro data f _; rfl
  | cons p rest ih =>
    obtain ⟨g, w⟩ := p
    intro data f h
    simp only [List.map_cons, List.mem_cons, not_or] at h
    simp only [addDefaults]
    by_cases hg : JValue.hasKey data g = true
    · simp only [hg, if_pos rfl]
      exact ih data f (by simpa using h.2)
    · have hg' : JValue.hasKey data g = false := by
        cases hgg : JValue.hasKey data g
        · rfl
        · exact absurd hgg hg
      simp only [hg', Bool.false_eq_true, if_false]
      rw [ih _ f (by simpa using h.2)]
      cases hl : JValue.lookupF data f with
      | some u => rw [lookupF_append_of_isSome _ (by simp [hl]), hl]
      | none =>
        rw [lookupF_append_of_none _ hl]
        have hgf : g ≠ f := fun hh => h.1 hh.symm
        simp [JValue.lookupF, hgf]

theorem clean_patient_info_lookupF_ne (d : List (String × JValue)) (f : String)
    (h : f ≠ "patient_info") :
    JValue.lookupF (clean_patient_info d) f = JValue.lookupF d f := by
  unfold clean_patient_info
  split <;> rw [lookupF_setKey_ne _ _ _ _ h]

theorem clean_pain_rating_lookupF_ne (d : List (String × JValue)) (f : String)
    (h : f ≠ "pain_rating") :
    JValue.lookupF (clean_pain_rating d) f = JValue.lookupF d f := by
  unfold clean_pain_rating
  split <;> rw [lookupF_setKey_ne _ _ _ _ h]

theorem clean_cpt_codes_lookupF_ne (d : List (String × JValue)) (f : String)
    (h : f ≠ "recommended_cpt_codes") :
    JValue.lookupF (clean_cpt_codes d) f = JValue.lookupF d f := by
  unfold clean_cpt_codes
  split <;> rw [lookupF_setKey_ne _ _ _ _ h]

theorem clean_qpp_measures_lookupF_ne (d : List (String × JValue)) (f : String)
    (h : f ≠ "qpp_measures") :
    JValue.lookupF (clean_qpp_measures d) f = JValue.lookupF d f := by
  unfold clean_qpp_measures
  split <;> rw [lookupF_setKey_ne _ _ _ _ h]

theorem clean_patient_info_hasKey (d : List (String × JValue)) (f : String)
    (h : JValue.hasKey d f = true) :
    JValue.hasKey (clean_patient_info d) f = true := by
  unfold clean_patient_info
  split <;> exact hasKey_setKey_of_hasKey _ _ h

theorem clean_pain_rating_hasKey (d : List (String × JValue)) (f : String)
    (h : JValue.hasKey d f = true) :
    JValue.hasKey (clean_pain_rating d) f = true := by
  unfold clean_pain_rating
  split <;> exact hasKey_setKey_of_hasKey _ _ h

theorem clean_cpt_codes_hasKey (d : List (String × JValue)) (f : String)
    (h : JValue.hasKey d f = true) :
    JValue.hasKey (clean_cpt_codes d) f = true := by
  unfold clean_cpt_codes
  split <;> exact hasKey_setKey_of_hasKey _ _ h

theorem clean_qpp_measures_hasKey (d : List (String × JValue)) (f : String)
    (h : JValue.hasKey d f = true) :
    JValue.hasKey (clean_qpp_measures d) f = true := by
  unfold clean_qpp_measures
  split <;> exact hasKey_setKey_of_hasKey _ _ h

theorem clean_patient_info_default (d : List (String × JValue))
    (h : JValue.lookupF d "patient_info" = some default_patient_info) :
    JValue.lookupF (clean_patient_info d) "patient_info" = some default_patient_info := by
  unfold clean_patient_info
  rw [h]
  show JValue.lookupF
    (JValue.setKey d "patient_info"
      (.obj (ensureKeys ["age", "sex", "visit_date", "visit_location"]
        [("age", .null), ("sex", .null), ("visit_date", .null), ("visit_location", .null)])))
    "patient_info" = some default_patient_info
  rw [lookupF_setKey_self]
  rfl

theorem clean_pain_rating_default (d : List (String × JValue))
    (h : JValue.lookupF d "pain_rating" = some default_pain_rating) :
    JValue.lookupF (clean_pain_rating d) "pain_rating" = some default_pain_rating := by
  unfold clean_pain_rating
  rw [h]
  show JValue.lookupF
    (JValue.setKey d "pain_rating"
      (.obj (ensureKeys ["level", "location"] [("level", .null), ("location", .null)])))
    "pain_rating" = some default_pain_rating
  rw [lookupF_setKey_self]
  rfl

theorem clean_fields_lookupF_plain (fs : List (String × JValue)) (f : String)
    (d : JValue) (habs : JValue.lookupF fs f = none)
    (hmem : (f, d) ∈ default_values)
    (h1 : f ≠ "patient_info") (h2 : f ≠ "pain_rating")
    (h3 : f ≠ "recommended_cpt_codes") (h4 : f ≠ "qpp_measures") :
    JValue.lookupF (clean_extracted_data_fields fs) f = some d := by
  unfold clean_extracted_data_fields
  rw [clean_qpp_measures_lookupF_ne _ _ h4, clean_cpt_codes_lookupF_ne _ _ h3,
    clean_pain_rating_lookupF_ne _ _ h2, clean_patient_info_lookupF_ne _ _ h1]
  exact addDefaults_lookupF_of_none default_values fs f d habs hmem (by decide)

theorem clean_fields_lookupF_pi (fs : List (String × JValue))
    (habs : JValue.lookupF fs "patient_info" = none) :
    JValue.lookupF (clean_extracted_data_fields fs) "patient_info" =
      some default_patient_info := by
  unfold clean_extracted_data_fields
  rw [clean_qpp_measures_lookupF_ne _ _ (by decide),
    clean_cpt_codes_lookupF_ne _ _ (by decide),
    clean_pain_rating_lookupF_ne _ _ (by decide)]
  exact clean_patient_info_default _
    (addDefaults_lookupF_of_none default_values fs _ _ habs (by decide) (by decide))

theorem clean_fields_lookupF_pr (fs : List (String × JValue))
    (habs : JValue.lookupF fs "pain_rating" = none) :
    JValue.lookupF (clean_extracted_data_fields fs) "pain_rating" =
      some default_pain_rating := by
  unfold clean_extracted_data_fields
  rw [clean_qpp_measures_lookupF_ne _ _ (by decide),
    clean_cpt_codes_lookupF_ne _ _ (by decide)]
  refine clean_pain_rating_default _ ?_
  rw [clean_patient_info_lookupF_ne _ _ (by decide)]
  exact addDefaults_lookupF_of_none default_values fs _ _ habs (by decide) (by decide)

theorem clean_fields_hasKey (fs : List (String × JValue)) (f : String)
    (hmem : f ∈ default_values.map Prod.fst) :
    JValue.hasKey (clean_extracted_data_fields fs) f = true := by
  unfold clean_extracted_data_fields
  exact clean_qpp_measures_hasKey _ _ (clean_cpt_codes_hasKey _ _
    (clean_pain_rating_hasKey _ _ (clean_patient_info_hasKey _ _
      (addDefaults_hasKey_of_mem default_values fs f hmem))))

theorem validate_ok_obj {v : JValue} {u : Unit}
    (h : validate_extracted_data v = .ok u) : ∃ fs, v = .obj fs := by
  cases v with
  | obj fs => exact ⟨fs, rfl⟩
  | null => simp [validate_extracted_data, Bind.bind, Except.bind] at h
  | b x => simp [validate_extracted_data, Bind.bind, Except.bind] at h
  | i n => simp [validate_extracted_data, Bind.bind, Except.bind] at h
  | s str => simp [validate_extracted_data, Bind.bind, Except.bind] at h
  | arr xs => simp [validate_extracted_data, Bind.bind, Except.bind] at h

theorem process_ok_inversion {content : BackendText} {out : JValue}
    (h : TranscriptProcessor_process content = .ok out) :
    ∃ fs, json_loads content = .ok (.obj fs) ∧
      validate_extracted_data (.obj fs) = .ok () ∧
      out = .obj (clean_extracted_data_fields fs) := by
  cases content with
  | malformed raw =>
    simp [TranscriptProcessor_process, json_loads, Bind.bind, Except.bind] at h
  | jsonOf v =>
    unfold TranscriptProcessor_process at h
    simp only [json_loads] at h
    obtain ⟨a, ha, h2⟩ := exceptBind_ok h
    obtain ⟨u, hu, h3⟩ := exceptBind_ok h2
    have hav : a = v := by
      cases ha
      rfl
    subst hav
    obtain ⟨fs, hfs⟩ := validate_ok_obj hu
    subst hfs
    refine ⟨fs, rfl, by cases u; exact hu, ?_⟩
    simp only [Pure.pure, Except.pure, clean_extracted_data] at h3
    cases h3
    rfl

/-- C4: for every extraction-backend response whose text is not parseable
as JSON, the extraction stage raises (the `json.JSONDecodeError` re-raised
as `ValueError`, surfaced as HTTP 500), the whole request fails, and no
downstream stage — neither the ICD/CPT/LCD agents of `transcribe_audio`
nor the dictionary matcher of `process_transcript` — is invoked. -/
theorem malformed_extraction_aborts_pipeline (raw t : String)
    (icd cpt lcd : Except PyErr BackendText) (vd : Option String)
    (dict : List (String × DictEntry)) :
    transcribe_audio ⟨t, .malformed raw, icd, cpt, lcd⟩ =
      (.error (.httpException 500), ["extraction"]) ∧
    process_transcript vd (.malformed raw) dict =
      (.error (.httpException 500), ["extraction"]) := by
  constructor <;> rfl

/-- C5: whenever the CPT-agent call raises, the LCD validator agent is
never invoked and the request aborts with HTTP 500. -/
theorem cpt_failure_skips_lcd_validator (t : String) (ext : BackendText)
    (icd lcd : Except PyErr BackendText) (e : PyErr) :
    (transcribe_audio ⟨t, ext, icd, .error e, lcd⟩).1 =
      .error (.httpException 500) ∧
    "lcd_validator" ∉ (transcribe_audio ⟨t, ext, icd, .error e, lcd⟩).2 := by
  unfold transcribe_audio
  dsimp only
  cases hp : TranscriptProcessor_process ext with
  | error e1 => exact ⟨rfl, by dsimp only; decide⟩
  | ok d =>
    dsimp only
    cases ht : TranscriptProcessorResponse_ofJ d with
    | error e2 => exact ⟨rfl, by dsimp only; decide⟩
    | ok tpr =>
      dsimp only
      cases icd with
      | error e3 => exact ⟨rfl, by dsimp only; decide⟩
      | ok icdT =>
        dsimp only
        cases hj : json_loads icdT with
        | error e4 => exact ⟨rfl, by dsimp only; decide⟩
        | ok icdJ =>
          dsimp only
          cases hg : pyGetE icdJ "icd_codes" (.arr []) with
          | error e5 => exact ⟨rfl, by dsimp only; decide⟩
          | ok iv => exact ⟨rfl, by dsimp only; decide⟩

theorem bind_error_exists {α β : Type} {x : Except PyErr α} {f : α → Except PyErr β}
    (h : ∀ a, x = .ok a → ∃ e, f a = .error e) : ∃ e, x >>= f = .error e := by
  cases x with
  | error e => exact ⟨e, rfl⟩
  | ok a =>
    obtain ⟨e, he⟩ := h a rfl
    exact ⟨e, by simpa [Bind.bind, Except.bind] using he⟩

/-- C10: for every record produced by the extraction stage in which `plan`
is null (exactly what the extraction stage produces when the backend omits
or nulls `plan`), `CPTLCDMatcher.match` raises instead of returning a
result — composing the extraction stage's defaulted output with the
matcher fails whenever `plan` is null. -/
theorem null_plan_breaks_matcher (dict : List (String × DictEntry))
    (content : BackendText) (out : JValue)
    (h1 : TranscriptProcessor_process content = .ok out)
    (h2 : JValue.lookup out "plan" = some .null) :
    ∃ e, CPTLCDMatcher_match dict out = .error e := by
  obtain ⟨fs, hjson, hval, hout⟩ := process_ok_inversion h1
  subst hout
  have hplan : JValue.lookupF (clean_extracted_data_fields fs) "plan" = some .null := h2
  unfold CPTLCDMatcher_match
  apply bind_error_exists; intro procedures hP
  apply bind_error_exists; intro plan_items hPl
  apply bind_error_exists; intro procElems hPE
  apply bind_error_exists; intro procLower hPL
  have hnull : plan_items = .null := by
    simp [pyGetE, hplan] at hPl
    exact hPl.symm
  subst hnull
  exact ⟨.typeError, by simp [pyIter, Bind.bind, Except.bind]⟩

/-- C10 witness: a concrete accepted backend response with `plan: null`;
the extraction stage succeeds and the matcher then raises. -/
theorem null_plan_breaks_matcher_witness :
    ∃ e, CPTLCDMatcher_match get_default_dictionary
      (.obj (clean_extracted_data_fields c10ext_fields)) = .error e :=
  null_plan_breaks_matcher get_default_dictionary (.jsonOf (.obj c10ext_fields))
    (.obj (clean_extracted_data_fields c10ext_fields)) rfl rfl

theorem buildCptCodes_error_of_cons (r : MatchResult) (c : String) (cs : List String)
    (hcc : r.cpt_suggestions = c :: cs) :
    buildCptCodes r.toJ = .error .attributeError := by
  unfold buildCptCodes MatchResult.toJ
  rw [hcc]
  simp [pyGetE, pyGetAnyKey, pyIter, pyIn, JValue.lookupF, Bind.bind, Except.bind,
    List.mapM_cons, List.mapM.loop, CPTCode_ofFields]

/-- C9: whenever the matcher returns a non-empty `cpt_suggestions` list,
the response assembly of `/process_transcript` raises (it calls `.get` on
the `lcd_codes` list while building each `CPTCode`), so the endpoint
fails with HTTP 500 — it can only return a successful response when the
matcher produced zero CPT suggestions. -/
theorem nonempty_cpt_suggestions_fail_endpoint (vd : Option String)
    (content : BackendText) (dict : List (String × DictEntry))
    (d : JValue) (r : MatchResult)
    (h1 : TranscriptProcessor_process content = .ok d)
    (h2 : CPTLCDMatcher_match dict d = .ok r)
    (h3 : r.cpt_suggestions ≠ []) :
    process_transcript vd content dict =
      (.error (.httpException 500), ["extraction", "matcher"]) := by
  obtain ⟨c, cs, hcc⟩ := List.exists_cons_of_ne_nil h3
  have hbuild := buildCptCodes_error_of_cons r c cs hcc
  unfold process_transcript
  rw [h1]
  dsimp only
  rw [h2]
  dsimp only
  simp [hbuild, Bind.bind, Except.bind]

/-- C9 witness: a concrete run in which the matcher suggests CPT 97110 and
the endpoint consequently fails. -/
theorem nonempty_cpt_suggestions_fail_endpoint_witness :
    process_transcript none (.jsonOf (.obj c9ext_fields)) get_default_dictionary =
      (.error (.httpException 500), ["extraction", "matcher"]) :=
  nonempty_cpt_suggestions_fail_endpoint none (.jsonOf (.obj c9ext_fields))
    get_default_dictionary (.obj (clean_extracted_data_fields c9ext_fields))
    c9match rfl rfl (by decide)

/-- C3 counterexample: with the record's `plan` being a *string* containing
"Plan: start physical therapy 2x/week" (the record shape of spec section 3)
and `functional_limitations` absent, `match` iterates the plan string
character by character, matches nothing, and returns empty suggestion
sets and no warnings — contradicting the claimed `cpt_suggestions ⊇
\x7b"97110"\x7d` round trip. -/
theorem dictionary_match_round_trip_counterexample :
    ∃ r : MatchResult, CPTLCDMatcher_match c3dict c3record = .ok r ∧
      "97110" ∉ r.cpt_suggestions ∧ "L33611" ∉ r.lcd_codes ∧ r.lcd_warnings = [] := by
  refine ⟨⟨[], [], []⟩, ?_, by decide, by decide, rfl⟩
  rfl

/-- C3 amended: the round trip holds when the record's `plan` is a *list*
one of whose elements is the string "Plan: start physical therapy
2x/week" (the shape `match` actually iterates): with the claim's
single-entry dictionary and `functional_limitations` null or absent,
`match` returns "97110" among `cpt_suggestions`, "L33611" among
`lcd_codes`, and a warning mentioning `functional_limitations`. -/
theorem dictionary_match_round_trip_amended
    (others : List (String × JValue))
    (hpm : JValue.lookupF others "procedures_mentioned" = none)
    (hfl : (JValue.lookupF others "functional_limitations").getD .null = .null) :
    ∃ r : MatchResult,
      CPTLCDMatcher_match c3dict (.obj (("plan", .arr [.s c3planText]) :: others)) = .ok r ∧
      "97110" ∈ r.cpt_suggestions ∧ "L33611" ∈ r.lcd_codes ∧
      ∃ w ∈ r.lcd_warnings, strContains w "functional_limitations" = true := by
  have h1 : pyGetE (.obj (("plan", .arr [.s c3planText]) :: others))
      "procedures_mentioned" (.arr []) = .ok (.arr []) := by
    simp [pyGetE, JValue.lookupF, hpm]
  have h2 : pyGetE (.obj (("plan", .arr [.s c3planText]) :: others)) "plan" (.arr []) =
      .ok (.arr [.s c3planText]) := by
    simp [pyGetE, JValue.lookupF]
  have h3 : check_required_fields ["functional_limitations"]
      (.obj (("plan", .arr [.s c3planText]) :: others)) = .ok ["functional_limitations"] := by
    simp [check_required_fields, pyGetE, JValue.lookupF, hfl, pyTruthy]
    rw [if_neg (by decide)]
    rfl
  unfold CPTLCDMatcher_match
  rw [h1]
  simp only [Bind.bind, Except.bind, h2, pyIter, List.mapM_nil, List.mapM_cons,
    pyLowerE, List.map_nil, List.map_cons, List.mapM.loop]
  simp only [List.append_nil, List.nil_append, List.eraseDups, List.foldlM, h3,
    strLower, charLower]
  refine ⟨⟨["97110"], ["L33611"],
    ["Missing required fields for physical therapy (CPT 97110, LCD L33611): functional_limitations"]⟩,
    by rfl, by decide, by decide,
    ⟨"Missing required fields for physical therapy (CPT 97110, LCD L33611): functional_limitations",
      by decide, by decide⟩⟩

/-- C3 amended witness: the record containing only the plan list. -/
theorem dictionary_match_round_trip_amended_witness :
    ∃ r : MatchResult,
      CPTLCDMatcher_match c3dict (.obj (("plan", .arr [.s c3planText]) :: [])) = .ok r ∧
      "97110" ∈ r.cpt_suggestions ∧ "L33611" ∈ r.lcd_codes ∧
      ∃ w ∈ r.lcd_warnings, strContains w "functional_limitations" = true :=
  dictionary_match_round_trip_amended [] rfl rfl

/-- C7 counterexample: a backend response whose `pain_rating` is the loose
string "7/10 in lower back" (all required fields present) makes the
extraction stage raise `ValueError` — the request *fails*; no heuristic
split of the string ever happens. -/
theorem pain_rating_string_fails_request :
    TranscriptProcessor_process (.jsonOf (.obj c7data_fields)) =
      .error (.valueError "pain_rating must be an object") := by rfl

/-- C7 amended: when `pain_rating` arrives as a non-empty string,
`_validate_extracted_data` raises `ValueError` ("pain_rating must be an
object") and the request fails; and had the cleaning step been reached, it
would replace the non-dict `pain_rating` with the default
`\x7blevel: null, location: null\x7d` object, discarding the raw string —
the code contains no "/"-and-" in " splitting heuristic at all. -/
theorem pain_rating_string_amended (fs : List (String × JValue)) (raw : String)
    (hreq : validate_required_fields.all (fun f => JValue.hasKey fs f) = true)
    (hpi : ((JValue.lookupF fs "patient_info").getD .null).isObj = true)
    (hpr : JValue.lookupF fs "pain_rating" = some (.s raw))
    (hraw : raw ≠ "") :
    TranscriptProcessor_process (.jsonOf (.obj fs)) =
      .error (.valueError "pain_rating must be an object") ∧
    JValue.lookupF (clean_extracted_data_fields fs) "pain_rating" =
      some default_pain_rating := by
  constructor
  · have hany : (validate_required_fields.any fun f => !(JValue.hasKey fs f)) = false := by
      simp only [List.any_eq_false]
      intro x hx
      simp [List.all_eq_true.mp hreq x hx]
    have hval : validate_extracted_data (.obj fs) =
        .error (.valueError "pain_rating must be an object") := by
      unfold validate_extracted_data
      simp only [Bind.bind, Except.bind, Pure.pure, Except.pure, hany,
        Bool.false_eq_true, if_false, hpr, Option.getD_some, hpi, Bool.not_true]
      simp [pyTruthy, JValue.isObj, hraw]
    unfold TranscriptProcessor_process
    simp [json_loads, Bind.bind, Except.bind, hval]
  · have hhas : JValue.hasKey fs "pain_rating" = true := by
      unfold JValue.hasKey
      rw [hpr]
      rfl
    have h1 : JValue.lookupF (addDefaults default_values fs) "pain_rating" =
        some (.s raw) := by
      rw [addDefaults_lookupF_of_hasKey default_values fs _ hhas]
      exact hpr
    have h2 : JValue.lookupF (clean_patient_info (addDefaults default_values fs))
        "pain_rating" = some (.s raw) := by
      rw [clean_patient_info_lookupF_ne _ _ (by decide)]
      exact h1
    unfold clean_extracted_data_fields
    rw [clean_qpp_measures_lookupF_ne _ _ (by decide),
      clean_cpt_codes_lookupF_ne _ _ (by decide)]
    unfold clean_pain_rating
    rw [h2]
    show JValue.lookupF (JValue.setKey (clean_patient_info (addDefaults default_values fs))
      "pain_rating" default_pain_rating) "pain_rating" = some default_pain_rating
    rw [lookupF_setKey_self]

/-- C7 amended witness: the concrete loose-string record. -/
theorem pain_rating_string_amended_witness :
    TranscriptProcessor_process (.jsonOf (.obj c7data_fields)) =
      .error (.valueError "pain_rating must be an object") ∧
    JValue.lookupF (clean_extracted_data_fields c7data_fields) "pain_rating" =
      some default_pain_rating :=
  pain_rating_string_amended c7data_fields "7/10 in lower back"
    (by decide) rfl rfl (by decide)

/-- C6 counterexample: the ICD agent returns valid JSON that is an array,
not an object; instead of substituting an empty `icd_codes` list and
continuing, the request fails with HTTP 500 while building the CPT-agent
input (`.get` on a list), and the CPT/LCD agents are never invoked. -/
theorem coding_stage_nonobject_fails :
    transcribe_audio c6bad_inp =
      (.error (.httpException 500), ["extraction", "icd_agent"]) := by rfl

theorem merge_empty_defaults (e : TPRRecord) (po : Option PatientInfoR)
    (hpo : PatientInfo_ofJ e.patient_info = .ok po) :
    TranscriptResponse_merge e (.arr []) (.arr []) (.arr []) =
      .ok ⟨po, e.chief_complaint, e.history_of_present_illness, e.assessment,
        e.plan, e.pain_rating, e.prior_treatments, e.vital_signs,
        e.past_medical_history, e.social_history, e.family_history,
        e.review_of_systems, e.exam_findings, e.imaging_summary, none,
        some [], e.follow_up_instructions, e.date, e.prompt, some [], some []⟩ := by
  unfold TranscriptResponse_merge
  simp [Bind.bind, Except.bind, hpo, validateOptListStr, validateOptListCPT,
    validateOptListLCD, Pure.pure, Except.pure, List.mapM.loop]

/-- C6 amended: the permissive substitution holds only for *object*-shaped
agent JSON: when the ICD / CPT / LCD agents return JSON objects lacking
their array fields, the pipeline substitutes empty lists and still
produces a final report; but a parsed non-object response fails the whole
request (see the counterexample). -/
theorem coding_stage_permissive_amended
    (t : String) (ext : BackendText) (d : JValue) (e : TPRRecord)
    (po : Option PatientInfoR) (gs hs ks : List (String × JValue))
    (h1 : TranscriptProcessor_process ext = .ok d)
    (h2 : TranscriptProcessorResponse_ofJ d = .ok e)
    (hpo : PatientInfo_ofJ e.patient_info = .ok po)
    (hg : JValue.lookupF gs "icd_codes" = none)
    (hh : JValue.lookupF hs "recommended_cpt_codes" = none)
    (hk : JValue.lookupF ks "lcd_validation" = none) :
    ∃ resp : TranscriptResponseR,
      transcribe_audio ⟨t, ext, .ok (.jsonOf (.obj gs)), .ok (.jsonOf (.obj hs)),
        .ok (.jsonOf (.obj ks))⟩ =
        (.ok resp, ["extraction", "icd_agent", "cpt_agent", "lcd_validator"]) ∧
      resp.icd_codes = some [] ∧ resp.recommended_cpt_codes = some [] ∧
      resp.lcd_validation = some [] := by
  have hgi : pyGetE (.obj gs) "icd_codes" (.arr []) = .ok (.arr []) := by
    simp [pyGetE, hg]
  have hhi : pyGetE (.obj hs) "recommended_cpt_codes" (.arr []) = .ok (.arr []) := by
    simp [pyGetE, hh]
  have hki : pyGetE (.obj ks) "lcd_validation" (.arr []) = .ok (.arr []) := by
    simp [pyGetE, hk]
  unfold transcribe_audio
  dsimp only
  rw [h1]
  dsimp only
  rw [h2]
  dsimp only
  simp only [json_loads, hgi, hhi, hki, Bind.bind, Except.bind,
    merge_empty_defaults e po hpo]
  exact ⟨_, rfl, rfl, rfl, rfl⟩

/-- C6 amended witness: all three agents return the empty JSON object. -/
theorem coding_stage_permissive_amended_witness :
    ∃ resp : TranscriptResponseR,
      transcribe_audio ⟨"t", .jsonOf (.obj c6ext_fields), .ok (.jsonOf (.obj [])),
        .ok (.jsonOf (.obj [])), .ok (.jsonOf (.obj []))⟩ =
        (.ok resp, ["extraction", "icd_agent", "cpt_agent", "lcd_validator"]) ∧
      resp.icd_codes = some [] ∧ resp.recommended_cpt_codes = some [] ∧
      resp.lcd_validation = some [] :=
  coding_stage_permissive_amended "t" (.jsonOf (.obj c6ext_fields))
    (.obj (clean_extracted_data_fields c6ext_fields)) c6e
    (some ⟨.null, .null, .null, .null⟩) [] [] [] rfl rfl rfl rfl rfl rfl

theorem transcribe_audio_ok_inversion {inp : AudioInputs} {resp : TranscriptResponseR}
    {tr : List String} (h : transcribe_audio inp = (.ok resp, tr)) :
    ∃ d e icdT cptT lcdT icdJ cptJ lcdJ,
      TranscriptProcessor_process inp.extraction = .ok d ∧
      TranscriptProcessorResponse_ofJ d = .ok e ∧
      inp.icd_call = .ok icdT ∧ json_loads icdT = .ok icdJ ∧
      inp.cpt_call = .ok cptT ∧ json_loads cptT = .ok cptJ ∧
      inp.lcd_call = .ok lcdT ∧ json_loads lcdT = .ok lcdJ ∧
      (do
        let icd_v ← pyGetE icdJ "icd_codes" (.arr [])
        let cpt_v ← pyGetE cptJ "recommended_cpt_codes" (.arr [])
        let lcd_v ← pyGetE lcdJ "lcd_validation" (.arr [])
        TranscriptResponse_merge e icd_v cpt_v lcd_v) = .ok resp ∧
      tr = ["extraction", "icd_agent", "cpt_agent", "lcd_validator"] := by
  unfold transcribe_audio at h
  repeat (split at h; try (exfalso; simp at h))
  rename_i x10 d heq10 x9 e2 heq9 x8 icdT heq8 x7 icdJ heq7 x6 iv heq6 x5 cptT
    heq5 x4 cptJ heq4 x3 cv heq3 x2 lcdT heq2 x1 lcdJ heq1 x0 fr heq0
  rw [Prod.mk.injEq] at h
  obtain ⟨hfr, htr⟩ := h
  injection hfr with hfr
  subst hfr
  exact ⟨d, e2, icdT, cptT, lcdT, icdJ, cptJ, lcdJ, heq10, heq9, heq8, heq7, heq5,
    heq4, heq2, heq1, heq0, htr.symm⟩

/-- C1: merge precedence.  For every pipeline run in which the Extraction
Stage's raw output includes a `recommended_cpt_codes` field `X` and the
CPT agent returns a different `recommended_cpt_codes` list `Y`, the final
merged response's `recommended_cpt_codes` is the (pydantic-validated)
image of `Y` alone — a function of the Coding Stage's list only, with the
extraction-produced `X` discarded when `TranscriptProcessorResponse`
(which has no such field) drops it before the merge. -/
theorem merge_precedence
    (t : String) (fs gs : List (String × JValue)) (X Y : JValue)
    (icdR lcdR : BackendText) (resp : TranscriptResponseR) (tr : List String)
    (_hX : JValue.lookupF fs "recommended_cpt_codes" = some X)
    (hY : JValue.lookupF gs "recommended_cpt_codes" = some Y)
    (_hne : X ≠ Y)
    (hrun : transcribe_audio ⟨t, .jsonOf (.obj fs), .ok icdR,
      .ok (.jsonOf (.obj gs)), .ok lcdR⟩ = (.ok resp, tr)) :
    validateOptListCPT Y = .ok resp.recommended_cpt_codes := by
  obtain ⟨d, e, icdT, cptT, lcdT, icdJ, cptJ, lcdJ, hd, he, hic, hicj, hcc, hccj,
    hlc, hlcj, hmerge, htr⟩ := transcribe_audio_ok_inversion hrun
  have hcpt : cptT = .jsonOf (.obj gs) := by
    have h' : Except.ok (ε := PyErr) (BackendText.jsonOf (.obj gs)) = .ok cptT := hcc
    injection h' with h'
    exact h'.symm
  subst hcpt
  have hcptJ : cptJ = .obj gs := by
    simp [json_loads] at hccj
    exact hccj.symm
  subst hcptJ
  obtain ⟨icd_v, hgiv, hmerge⟩ := exceptBind_ok hmerge
  obtain ⟨cpt_v, hgcv, hmerge⟩ := exceptBind_ok hmerge
  obtain ⟨lcd_v, hglv, hmerge⟩ := exceptBind_ok hmerge
  have hcv : cpt_v = Y := by
    simp [pyGetE, hY] at hgcv
    exact hgcv.symm
  subst hcv
  unfold TranscriptResponse_merge at hmerge
  obtain ⟨po, hpo, hmerge⟩ := exceptBind_ok hmerge
  obtain ⟨icdL, hicdL, hmerge⟩ := exceptBind_ok hmerge
  obtain ⟨cptL, hcptL, hmerge⟩ := exceptBind_ok hmerge
  obtain ⟨lcdL, hlcdL, hmerge⟩ := exceptBind_ok hmerge
  have hresp : resp.recommended_cpt_codes = cptL := by
    simp only [Pure.pure, Except.pure] at hmerge
    cases hmerge
    rfl
  rw [hresp]
  exact hcptL

/-- C1 witness: a concrete run in which the extraction echoes code 11111
and the CPT agent answers 97110; the final response carries the
validated 97110 entry. -/
theorem merge_precedence_witness :
    validateOptListCPT
      (.arr [.obj [("code", .s "97110"), ("description", .s "therapeutic exercise"),
        ("requires_lcd", .b true), ("lcd_code", .s "L33611")]]) =
      .ok c1resp.recommended_cpt_codes :=
  merge_precedence "the real transcript" c1ext_fields c1cpt_fields
    (.arr [.obj [("code", .s "11111"), ("description", .s "extraction suggestion"),
      ("requires_lcd", .b false)]])
    (.arr [.obj [("code", .s "97110"), ("description", .s "therapeutic exercise"),
      ("requires_lcd", .b true), ("lcd_code", .s "L33611")]])
    (.jsonOf (.obj [("icd_codes", .arr [.s "M54.5"])])) (.jsonOf (.obj []))
    c1resp ["extraction", "icd_agent", "cpt_agent", "lcd_validator"]
    rfl rfl (by decide) rfl

theorem clean_fields_lookupF_prompt (fs : List (String × JValue)) :
    JValue.lookupF (clean_extracted_data_fields fs) "prompt" =
      JValue.lookupF fs "prompt" := by
  unfold clean_extracted_data_fields
  rw [clean_qpp_measures_lookupF_ne _ _ (by decide),
    clean_cpt_codes_lookupF_ne _ _ (by decide),
    clean_pain_rating_lookupF_ne _ _ (by decide),
    clean_patient_info_lookupF_ne _ _ (by decide)]
  exact addDefaults_lookupF_of_not_mem default_values fs _ (by decide)

theorem TPR_ofJ_prompt {fs : List (String × JValue)} {e : TPRRecord}
    (h : TranscriptProcessorResponse_ofJ (.obj fs) = .ok e) :
    validateOptStr ((JValue.lookupF fs "prompt").getD .null) = .ok e.prompt := by
  unfold TranscriptProcessorResponse_ofJ at h
  obtain ⟨v1, e1, h⟩ := exceptBind_ok h
  obtain ⟨v2, e2, h⟩ := exceptBind_ok h
  obtain ⟨v3, e3, h⟩ := exceptBind_ok h
  obtain ⟨v4, e4, h⟩ := exceptBind_ok h
  obtain ⟨v5, e5, h⟩ := exceptBind_ok h
  obtain ⟨v6, e6, h⟩ := exceptBind_ok h
  obtain ⟨v7, e7, h⟩ := exceptBind_ok h
  obtain ⟨v8, e8, h⟩ := exceptBind_ok h
  obtain ⟨v9, e9, h⟩ := exceptBind_ok h
  obtain ⟨v10, e10, h⟩ := exceptBind_ok h
  obtain ⟨v11, e11, h⟩ := exceptBind_ok h
  obtain ⟨v12, e12, h⟩ := exceptBind_ok h
  obtain ⟨v13, e13, h⟩ := exceptBind_ok h
  obtain ⟨v14, e14, h⟩ := exceptBind_ok h
  obtain ⟨v15, e15, h⟩ := exceptBind_ok h
  obtain ⟨v16, e16, h⟩ := exceptBind_ok h
  simp only [Pure.pure, Except.pure] at h
  cases h
  exact e16

/-- C8 counterexample: a successful run whose final `prompt` is whatever
the Extraction Stage echoed, not the transcript actually sent: the claim
"`prompt` equals the transcript sent to the Extraction Stage" is false at
this input. -/
theorem prompt_not_transcript_counterexample :
    ∃ resp : TranscriptResponseR, (transcribe_audio c8inp).1 = .ok resp ∧
      resp.prompt = .s "echoed by backend" ∧
      c8inp.transcript = "the real transcript" ∧
      resp.prompt ≠ .s c8inp.transcript := by
  exact ⟨c8resp, rfl, rfl, rfl, by decide⟩

/-- C8 amended: on every successfully merged run the final report's
`prompt` is the pydantic-validated value of the `prompt` field the
Extraction Stage itself echoed back (null when absent); the transcript
sent to the Extraction Stage is never written into `prompt`. -/
theorem prompt_from_extraction_echo
    (inp : AudioInputs) (fs : List (String × JValue)) (resp : TranscriptResponseR)
    (tr : List String)
    (hext : inp.extraction = .jsonOf (.obj fs))
    (hrun : transcribe_audio inp = (.ok resp, tr)) :
    validateOptStr ((JValue.lookupF fs "prompt").getD .null) = .ok resp.prompt := by
  obtain ⟨d, e, icdT, cptT, lcdT, icdJ, cptJ, lcdJ, hd, he, hic, hicj, hcc, hccj,
    hlc, hlcj, hmerge, htr⟩ := transcribe_audio_ok_inversion hrun
  rw [hext] at hd
  obtain ⟨fs2, hjson, hval, hout⟩ := process_ok_inversion hd
  have hfs : fs2 = fs := by
    simp only [json_loads, Except.ok.injEq, JValue.obj.injEq] at hjson
    exact hjson.symm
  subst hfs
  subst hout
  have hp := TPR_ofJ_prompt he
  rw [clean_fields_lookupF_prompt] at hp
  obtain ⟨icd_v, hgiv, hmerge⟩ := exceptBind_ok hmerge
  obtain ⟨cpt_v, hgcv, hmerge⟩ := exceptBind_ok hmerge
  obtain ⟨lcd_v, hglv, hmerge⟩ := exceptBind_ok hmerge
  unfold TranscriptResponse_merge at hmerge
  obtain ⟨po, hpo, hmerge⟩ := exceptBind_ok hmerge
  obtain ⟨icdL, hicdL, hmerge⟩ := exceptBind_ok hmerge
  obtain ⟨cptL, hcptL, hmerge⟩ := exceptBind_ok hmerge
  obtain ⟨lcdL, hlcdL, hmerge⟩ := exceptBind_ok hmerge
  have hresp : resp.prompt = e.prompt := by
    simp only [Pure.pure, Except.pure] at hmerge
    cases hmerge
    rfl
  rw [hresp]
  exact hp

/-- C8 amended witness: the run with the echoed prompt. -/
theorem prompt_from_extraction_echo_witness :
    validateOptStr ((JValue.lookupF c8ext_fields "prompt").getD .null) =
      .ok c8resp.prompt :=
  prompt_from_extraction_echo c8inp c8ext_fields c8resp
    ["extraction", "icd_agent", "cpt_agent", "lcd_validator"] rfl rfl


set_option maxHeartbeats 8000000 in
/-- C2: every backend JSON object accepted by the extraction stage yields
a record containing all sixteen fixed top-level fields of the Structured
Clinical Record; any field absent from the raw backend response appears
with its documented default (null, the default nested object, or the
empty list). -/
theorem extraction_record_fully_shaped (v out : JValue)
    (h : TranscriptProcessor_process (.jsonOf v) = .ok out) :
    ∀ p ∈ spec_top_level_defaults,
      (JValue.lookup out p.1).isSome = true ∧
      (JValue.lookup v p.1 = none → JValue.lookup out p.1 = some p.2) := by
  obtain ⟨fs, hjson, hval, hout⟩ := process_ok_inversion h
  have hv : v = .obj fs := by
    simp only [json_loads, Except.ok.injEq] at hjson
    exact hjson
  subst hv
  subst hout
  intro p hp
  simp only [JValue.lookup]
  simp only [spec_top_level_defaults, List.mem_cons, List.not_mem_nil, or_false] at hp
  rcases hp with h|h|h|h|h|h|h|h|h|h|h|h|h|h|h|h
  · exact h ▸ ⟨clean_fields_hasKey fs _ (by decide),
      fun habs => clean_fields_lookupF_pi fs habs⟩
  · exact h ▸ ⟨clean_fields_hasKey fs _ (by decide), fun habs =>
      clean_fields_lookupF_plain fs _ _ habs (by decide) (by decide) (by decide)
        (by decide) (by decide)⟩
  · exact h ▸ ⟨clean_fields_hasKey fs _ (by decide), fun habs =>
      clean_fields_lookupF_plain fs _ _ habs (by decide) (by decide) (by decide)
        (by decide) (by decide)⟩
  · exact h ▸ ⟨clean_fields_hasKey fs _ (by decide), fun habs =>
      clean_fields_lookupF_plain fs _ _ habs (by decide) (by decide) (by decide)
        (by decide) (by decide)⟩
  · exact h ▸ ⟨clean_fields_hasKey fs _ (by decide), fun habs =>
      clean_fields_lookupF_plain fs _ _ habs (by decide) (by decide) (by decide)
        (by decide) (by decide)⟩
  · exact h ▸ ⟨clean_fields_hasKey fs _ (by decide),
      fun habs => clean_fields_lookupF_pr fs habs⟩
  · exact h ▸ ⟨clean_fields_hasKey fs _ (by decide), fun habs =>
      clean_fields_lookupF_plain fs _ _ habs (by decide) (by decide) (by decide)
        (by decide) (by decide)⟩
  · exact h ▸ ⟨clean_fields_hasKey fs _ (by decide), fun habs =>
      clean_fields_lookupF_plain fs _ _ habs (by decide) (by decide) (by decide)
        (by decide) (by decide)⟩
  · exact h ▸ ⟨clean_fields_hasKey fs _ (by decide), fun habs =>
      clean_fields_lookupF_plain fs _ _ habs (by decide) (by decide) (by decide)
        (by decide) (by decide)⟩
  · exact h ▸ ⟨clean_fields_hasKey fs _ (by decide), fun habs =>
      clean_fields_lookupF_plain fs _ _ habs (by decide) (by decide) (by decide)
        (by decide) (by decide)⟩
  · exact h ▸ ⟨clean_fields_hasKey fs _ (by decide), fun habs =>
      clean_fields_lookupF_plain fs _ _ habs (by decide) (by decide) (by decide)
        (by decide) (by decide)⟩
  · exact h ▸ ⟨clean_fields_hasKey fs _ (by decide), fun habs =>
      clean_fields_lookupF_plain fs _ _ habs (by decide) (by decide) (by decide)
        (by decide) (by decide)⟩
  · exact h ▸ ⟨clean_fields_hasKey fs _ (by decide), fun habs =>
      clean_fields_lookupF_plain fs _ _ habs (by decide) (by decide) (by decide)
        (by decide) (by decide)⟩
  · exact h ▸ ⟨clean_fields_hasKey fs _ (by decide), fun habs =>
      clean_fields_lookupF_plain fs _ _ habs (by decide) (by decide) (by decide)
        (by decide) (by decide)⟩
  · exact h ▸ ⟨clean_fields_hasKey fs _ (by decide), fun habs =>
      clean_fields_lookupF_plain fs _ _ habs (by decide) (by decide) (by decide)
        (by decide) (by decide)⟩
  · exact h ▸ ⟨clean_fields_hasKey fs _ (by decide), fun habs =>
      clean_fields_lookupF_plain fs _ _ habs (by decide) (by decide) (by decide)
        (by decide) (by decide)⟩

/-- C2 witness: a concrete accepted record missing `vital_signs` (among
others); the cleaned record contains it, with the default null. -/
theorem extraction_record_fully_shaped_witness :
    (JValue.lookup (.obj (clean_extracted_data_fields c2ext_fields))
      "vital_signs").isSome = true ∧
    (JValue.lookup (.obj c2ext_fields) "vital_signs" = none →
      JValue.lookup (.obj (clean_extracted_data_fields c2ext_fields))
        "vital_signs" = some .null) :=
  extraction_record_fully_shaped (.obj c2ext_fields)
    (.obj (clean_extracted_data_fields c2ext_fields)) rfl
    ("vital_signs", .null) (by decide)
